import Mathlib

/-!
# Page storage layer of the B+Tree database (`src/src/file.c`)

A shallow embedding of `file.c`: the page I/O functions `read_page` and
`write_page`, the free-list manager `make_free_pages` / `get_free_page`, the page
factory `get_new_page`, the session functions `open_db` / `close_db`, and the
state they act on (the stream `g_db_file`, the cached pages `g_header_page` and
`g_root_page`, the files behind the stream).

Conventions.

* `PAGE_SIZE` is declared in `file.h`, which is not part of the sources at hand;
  every function takes it as the parameter `PAGE_SIZE : Nat`.
* `off_t` values and the 8-byte header fields are mathematical integers; a value
  that is stored into an 8-byte field is reduced with `wrap64`.
* The C library (`fseeko`, `fread`, `fwrite`, `fflush`) is modelled after the C
  standard: `fread` and `fwrite` return the number of complete *items*
  transferred.  Each call of `fseeko`, `fread`, `fwrite`, `fopen` and `fclose`
  consumes one entry of `World.script`, which decides whether the call fails;
  `fseeko`, `fread`, `fwrite` and `fflush` append one entry to `World.trace`.
* A function that dereferences `g_header_page` returns `none` when that pointer
  is `NULL` (undefined behaviour in C).
* `calloc` is assumed to succeed.
* `fopen` and `fclose` act on a `Process`, which adds the files and the marks of
  released pointers to the program state; a call that C leaves undefined (a second
  `fclose` of a stream, a second `free_page` of a page) returns `none`.
-/

namespace DbFile

/-! ## Data model -/

/-- In-memory page `Page` of `file.h`: the buffer `ptr_page` (a list of bytes) and
its byte offset in the file.  The order of the two fields is the one of the
initialiser `{ &new_free_page, ... }` in `make_free_pages`. -/
structure Page where
  ptr_page : List Nat
  offset : Int
deriving DecidableEq, Repr

/-- The stream behind `g_db_file`: the bytes of the file and the file position. -/
structure FileState where
  contents : List Nat
  pos : Nat
deriving DecidableEq, Repr

/-- One call of the C library on the stream, as recorded in the trace. -/
inductive LibCall where
  | seek (offset : Int) (ok : Bool)
  | read (pos requested got : Nat)
  | write (pos requested written : Nat)
  | flush
deriving DecidableEq, Repr

/-- Program state: the three globals of `file.c`, the outcomes of the upcoming
library calls (`none`: the call runs normally, `some k`: the call fails after
transferring at most `k` bytes), the trace of the library calls made so far, and
the indeterminate bytes found in uninitialised memory. -/
structure World where
  g_db_file : Option FileState
  g_header_page : Option Page
  g_root_page : Option Page
  script : List (Option Nat)
  trace : List LibCall
  junk : List Nat
deriving DecidableEq, Repr

/-! ## Eight-byte fields -/

/-- Reduction of an integer to the range of a signed 64-bit field. -/
def wrap64 (v : Int) : Int :=
  (v + 9223372036854775808) % 18446744073709551616 - 9223372036854775808

/-- Little-endian bytes of an 8-byte field holding `v`. -/
def le_bytes (v : Int) : List Nat :=
  let u := (v % 18446744073709551616).toNat
  [u % 256, u / 256 % 256, u / 65536 % 256, u / 16777216 % 256,
   u / 4294967296 % 256, u / 1099511627776 % 256, u / 281474976710656 % 256,
   u / 72057594037927936 % 256]

/-- Value of the 8-byte little-endian field made of the first eight bytes of `bs`
(missing bytes read as 0). -/
def le_value (bs : List Nat) : Int :=
  wrap64 (Int.ofNat
    (bs.getD 0 0 + 256 * bs.getD 1 0 + 65536 * bs.getD 2 0 + 16777216 * bs.getD 3 0 +
     4294967296 * bs.getD 4 0 + 1099511627776 * bs.getD 5 0 +
     281474976710656 * bs.getD 6 0 + 72057594037927936 * bs.getD 7 0))

/-- Read of the 8-byte field at byte `off` of a buffer. -/
def getI64 (buf : List Nat) (off : Nat) : Int :=
  le_value ((buf.drop off).take 8)

/-- Store of `v` into the 8-byte field at byte `off` of a buffer. -/
def setI64 (buf : List Nat) (off : Nat) (v : Int) : List Nat :=
  buf.take off ++ le_bytes v ++ buf.drop (off + 8)

/-- Modelled from the spec: `HEADER(p)->free_page_offset`; `HeaderPage` is declared in
`file.h` (not at hand), the spec places the free-list head in the first 8 bytes of the
header page. -/
def free_page_offset (p : Page) : Int := getI64 p.ptr_page 0

/-- Modelled from the spec: `HEADER(p)->root_page_offset`, the second 8-byte field. -/
def root_page_offset (p : Page) : Int := getI64 p.ptr_page 8

/-- Modelled from the spec: `HEADER(p)->number_of_pages`, the third 8-byte field. -/
def number_of_pages (p : Page) : Int := getI64 p.ptr_page 16

/-- Modelled from the spec: `FREE(p)->next_free_page_offset`, the first 8 bytes of a
free page. -/
def next_free_page_offset (p : Page) : Int := getI64 p.ptr_page 0

/-- Assignment `HEADER(p)->free_page_offset = v`. -/
def set_free_page_offset (p : Page) (v : Int) : Page :=
  { p with ptr_page := setI64 p.ptr_page 0 v }

/-- Assignment `HEADER(p)->number_of_pages = v`. -/
def set_number_of_pages (p : Page) (v : Int) : Page :=
  { p with ptr_page := setI64 p.ptr_page 16 v }

/-! ## The C library calls on `g_db_file` -/

/-- Takes the outcome of the next library call from the script (an exhausted script
means that the call runs normally). -/
def nextOutcome (w : World) : Option Nat × World :=
  match w.script with
  | [] => (none, w)
  | o :: rest => (o, { w with script := rest })

/-- Bytes of the file after `data` was written at position `pos`; a gap between the
end of the file and `pos` is filled with zero bytes. -/
def writeAt (c : List Nat) (pos : Nat) (data : List Nat) : List Nat :=
  if data.isEmpty then c
  else c.take pos ++ List.replicate (pos - c.length) 0 ++ data ++ c.drop (pos + data.length)

/-- The call `fseeko(g_db_file, offset, SEEK_SET)`: fails for a negative offset or when the
script says so; returns 0 on success and -1 on failure. -/
def fseeko (w : World) (offset : Int) : Int × World :=
  let (o, w1) := nextOutcome w
  match w1.g_db_file with
  | none => (-1, w1)
  | some f =>
    if o.isSome || decide (offset < 0) then
      (-1, { w1 with trace := w1.trace ++ [LibCall.seek offset false] })
    else
      (0, { w1 with g_db_file := some { f with pos := offset.toNat },
                    trace := w1.trace ++ [LibCall.seek offset true] })

/-- The call `fread(buf, size, nmemb, g_db_file)`: transfers up to `size * nmemb` bytes
from the file position into `buf` and returns the number of complete items read
together with the buffer. -/
def fread (w : World) (buf : List Nat) (size nmemb : Nat) : Nat × List Nat × World :=
  let (o, w1) := nextOutcome w
  match w1.g_db_file with
  | none => (0, buf, w1)
  | some f =>
    let want := size * nmemb
    let limit := match o with
      | none => want
      | some k => min k want
    let got := (f.contents.drop f.pos).take limit
    (if size = 0 then 0 else got.length / size,
     got ++ buf.drop got.length,
     { w1 with g_db_file := some { f with pos := f.pos + got.length },
               trace := w1.trace ++ [LibCall.read f.pos want got.length] })

/-- The call `fwrite(buf, size, nmemb, g_db_file)`: writes up to `size * nmemb` bytes of
`buf` at the file position and returns the number of complete items written.  Bytes
requested beyond the end of `buf` are taken as 0. -/
def fwrite (w : World) (buf : List Nat) (size nmemb : Nat) : Nat × World :=
  let (o, w1) := nextOutcome w
  match w1.g_db_file with
  | none => (0, w1)
  | some f =>
    let want := size * nmemb
    let limit := match o with
      | none => want
      | some k => min k want
    let data := (buf ++ List.replicate (want - buf.length) 0).take limit
    (if size = 0 then 0 else data.length / size,
     { w1 with g_db_file := some { contents := writeAt f.contents f.pos data,
                                   pos := f.pos + data.length },
               trace := w1.trace ++ [LibCall.write f.pos want data.length] })

/-- The call `fflush(g_db_file)`. -/
def fflush (w : World) : World :=
  { w with trace := w.trace ++ [LibCall.flush] }

/-! ## Page I/O -/

/-- `read_page` (file.c, lines 68-88).  `offset & 7` on a two's complement `off_t` is
the remainder of `offset` modulo 8. -/
def read_page (PAGE_SIZE : Nat) (w : World) (offset : Int) : Option Page × World :=
  match w.g_db_file with
  | none => (none, w)
  | some _ =>
    if offset % 8 ≠ 0 then (none, w)
    else
      let (rc, w1) := fseeko w offset
      if rc ≠ 0 then (none, w1)
      else
        let (cnt, buf, w2) := fread w1 (List.replicate PAGE_SIZE 0) PAGE_SIZE 1
        if cnt ≠ PAGE_SIZE then (none, w2)
        else (some { ptr_page := buf, offset := offset }, w2)

/-- `write_page` (file.c, lines 93-105). -/
def write_page (PAGE_SIZE : Nat) (w : World) (page : Page) : Int × World :=
  match w.g_db_file with
  | none => (-1, w)
  | some _ =>
    if page.offset % 8 ≠ 0 then (-1, w)
    else
      let (rc, w1) := fseeko w page.offset
      if rc ≠ 0 then (-1, w1)
      else
        let (cnt, w2) := fwrite w1 page.ptr_page PAGE_SIZE 1
        if cnt ≠ PAGE_SIZE then (-1, w2)
        else (0, fflush w2)

/-! ## Free-list manager -/

/-- The loop of `make_free_pages` (file.c, lines 123-132), started at `i` with `fuel`
iterations left to run.  The bytes of `new_free_page` after its first field are
uninitialised, they are taken from `World.junk`. -/
def make_free_pages_loop (PAGE_SIZE : Nat) (prev_free_page_offset num_free_pages : Int) :
    Nat → Int → World → Option World
  | 0, _, w => some w
  | fuel + 1, i, w =>
    if i ≤ num_free_pages then
      match w.g_header_page with
      | none => none
      | some hp =>
        let next : Int :=
          if i = num_free_pages then (number_of_pages hp + i) * PAGE_SIZE
          else prev_free_page_offset
        let wrapper : Page :=
          { ptr_page := le_bytes next ++ w.junk.take (PAGE_SIZE - 8),
            offset := wrap64 ((number_of_pages hp + i - 1) * PAGE_SIZE) }
        make_free_pages_loop PAGE_SIZE prev_free_page_offset num_free_pages fuel (i + 1)
          (write_page PAGE_SIZE w wrapper).2
    else some w

/-- The header as `make_free_pages` modifies it before writing it (file.c, lines 114-115):
the free-list head becomes `number_of_pages * PAGE_SIZE`, then the page count grows by
`num_free_pages`. -/
def make_free_pages_header (PAGE_SIZE : Nat) (hp : Page) (num_free_pages : Int) : Page :=
  let hp1 := set_free_page_offset hp (number_of_pages hp * PAGE_SIZE)
  set_number_of_pages hp1 (number_of_pages hp1 + num_free_pages)

/-- The two assignments that undo the header update when the header write fails
(file.c, lines 118-119). -/
def make_free_pages_undo (hp : Page) (prev_free_page_offset num_free_pages : Int) : Page :=
  let hp1 := set_free_page_offset hp prev_free_page_offset
  set_number_of_pages hp1 (number_of_pages hp1 - num_free_pages)

/-- `make_free_pages` (file.c, lines 110-135). -/
def make_free_pages (PAGE_SIZE : Nat) (w : World) (num_free_pages : Int) :
    Option (Int × World) :=
  match w.g_header_page with
  | none => none
  | some hp =>
    let prev_free_page_offset := free_page_offset hp
    let hp2 := make_free_pages_header PAGE_SIZE hp num_free_pages
    let (rc, w1) := write_page PAGE_SIZE { w with g_header_page := some hp2 } hp2
    if rc ≠ 0 then
      some (-1, { w1 with
        g_header_page := some (make_free_pages_undo hp2 prev_free_page_offset num_free_pages) })
    else
      (make_free_pages_loop PAGE_SIZE prev_free_page_offset num_free_pages
        num_free_pages.toNat 1 w1).map fun w2 => (0, w2)

/-- First statement of `get_free_page` (file.c, lines 141-143): the state in which the
head of the free list is read.  The result of `make_free_pages(10)` is discarded. -/
def get_free_page_extend (PAGE_SIZE : Nat) (w : World) : Option World :=
  match w.g_header_page with
  | none => none
  | some hp =>
    if free_page_offset hp = 0 then (make_free_pages PAGE_SIZE w 10).map Prod.snd
    else some w

/-- `get_free_page` (file.c, lines 140-155). -/
def get_free_page (PAGE_SIZE : Nat) (w : World) : Option (Option Page × World) :=
  match get_free_page_extend PAGE_SIZE w with
  | none => none
  | some w1 =>
    match w1.g_header_page with
    | none => none
    | some hp =>
      match read_page PAGE_SIZE w1 (free_page_offset hp) with
      | (none, w2) => some (none, w2)
      | (some new_free_page, w2) =>
        let hp1 := set_free_page_offset hp (next_free_page_offset new_free_page)
        let (rc, w3) := write_page PAGE_SIZE { w2 with g_header_page := some hp1 } hp1
        if rc ≠ 0 then
          some (none, { w3 with
            g_header_page := some (set_free_page_offset hp1 new_free_page.offset) })
        else some (some new_free_page, w3)

/-! ## Page factory, header kind -/

/-- Assignment `HEADER(p)->root_page_offset = v`. -/
def set_root_page_offset (p : Page) (v : Int) : Page :=
  { p with ptr_page := setI64 p.ptr_page 8 v }

/-- The branch `type == HEADER_PAGE` of `get_new_page` (file.c, lines 164-171): a zeroed
buffer of `sizeof(HeaderPage)` bytes at offset 0 with the three header fields set.
`sizeof(HeaderPage)` comes from `file.h` and is a parameter. -/
def get_new_page_header (sizeof_HeaderPage : Nat) : Page :=
  let new_page : Page := { ptr_page := List.replicate sizeof_HeaderPage 0, offset := 0 }
  set_number_of_pages (set_root_page_offset (set_free_page_offset new_page 0) 0) 1

/-! ## Four-byte fields and the node header -/

/-- Reduction of an integer to the range of a signed 32-bit field (a C `int`). -/
def wrap32 (v : Int) : Int := (v + 2147483648) % 4294967296 - 2147483648

/-- Little-endian bytes of a 4-byte field holding `v`. -/
def le_bytes32 (v : Int) : List Nat :=
  let u := (v % 4294967296).toNat
  [u % 256, u / 256 % 256, u / 65536 % 256, u / 16777216 % 256]

/-- Value of the 4-byte little-endian field made of the first four bytes of `bs`
(missing bytes read as 0). -/
def le_value32 (bs : List Nat) : Int :=
  wrap32 (Int.ofNat
    (bs.getD 0 0 + 256 * bs.getD 1 0 + 65536 * bs.getD 2 0 + 16777216 * bs.getD 3 0))

/-- Read of the 4-byte field at byte `off` of a buffer. -/
def getI32 (buf : List Nat) (off : Nat) : Int :=
  le_value32 ((buf.drop off).take 4)

/-- Store of `v` into the 4-byte field at byte `off` of a buffer. -/
def setI32 (buf : List Nat) (off : Nat) (v : Int) : List Nat :=
  buf.take off ++ le_bytes32 v ++ buf.drop (off + 4)

/-- Modelled from the spec: place of the node header `LEAF(p)->header` in a leaf or internal
page.  `LeafPage` is declared in `file.h` (not at hand); the spec names the two fields of the
header, a leaf flag and a key count.  Their byte offsets are parameters, and both fields are
taken as 4-byte C `int`s. -/
structure NodeLayout where
  is_leaf_at : Nat
  number_of_keys_at : Nat
deriving DecidableEq, Repr

/-- Modelled from the spec: `LEAF(p)->header.is_leaf`. -/
def is_leaf (L : NodeLayout) (p : Page) : Int := getI32 p.ptr_page L.is_leaf_at

/-- Modelled from the spec: `LEAF(p)->header.number_of_keys`. -/
def number_of_keys (L : NodeLayout) (p : Page) : Int := getI32 p.ptr_page L.number_of_keys_at

/-- Assignment `LEAF(p)->header.is_leaf = v`. -/
def set_is_leaf (L : NodeLayout) (p : Page) (v : Int) : Page :=
  { p with ptr_page := setI32 p.ptr_page L.is_leaf_at v }

/-- Assignment `LEAF(p)->header.number_of_keys = v`. -/
def set_number_of_keys (L : NodeLayout) (p : Page) (v : Int) : Page :=
  { p with ptr_page := setI32 p.ptr_page L.number_of_keys_at v }

/-! ## Page factory -/

/-- The enumeration `PAGE_TYPE` of `file.h`, with the four constants that `file.c` uses. -/
inductive PAGE_TYPE where
  | HEADER_PAGE
  | FREE_PAGE
  | LEAF_PAGE
  | INTERNAL_PAGE
deriving DecidableEq, Repr

/-- The two assignments of the last branch of `get_new_page` (file.c, lines 181-182): the
leaf flag becomes `type == LEAF_PAGE` and the key count 0. -/
def get_new_page_node (L : NodeLayout) (type : PAGE_TYPE) (new_page : Page) : Page :=
  set_number_of_keys L
    (set_is_leaf L new_page (if type = PAGE_TYPE.LEAF_PAGE then 1 else 0)) 0

/-- `get_new_page` (file.c, lines 160-186).  The outer `none` is the undefined behaviour of
`get_free_page` on a `NULL` header. -/
def get_new_page (PAGE_SIZE sizeof_HeaderPage : Nat) (L : NodeLayout) (w : World)
    (type : PAGE_TYPE) : Option (Option Page × World) :=
  match type with
  | PAGE_TYPE.HEADER_PAGE => some (some (get_new_page_header sizeof_HeaderPage), w)
  | PAGE_TYPE.FREE_PAGE => get_free_page PAGE_SIZE w
  | _ =>
    match get_free_page PAGE_SIZE w with
    | none => none
    | some (none, w1) => some (none, w1)
    | some (some new_page, w1) => some (some (get_new_page_node L type new_page), w1)

/-! ## Database session -/

/-- The process that runs `file.c` and the file system it works on: the state of the globals
and of the stream, the files (path and bytes), the path of the file behind the stream of
`g_db_file`, and three marks for pointers that are kept after their target was released:
`closed` (the stream of `g_db_file` was closed by `fclose`), `header_freed` and `root_freed`
(`g_header_page` / `g_root_page` went through `free_page`; the field of `world` is `none`
then, although the C pointer is not `NULL`).  `fopen` and `fclose` take their outcome from
`World.script` like the other library calls; they are not recorded in `World.trace`. -/
structure Process where
  world : World
  files : List (String × List Nat)
  pathname : String
  closed : Bool
  header_freed : Bool
  root_freed : Bool
deriving DecidableEq, Repr

/-- The two modes in which `open_db` opens the file. -/
inductive Mode where
  | r_plus
  | w_plus
deriving DecidableEq, Repr

/-- The assignment `g_db_file = fopen(pathname, mode)`: `"r+"` opens an existing file,
`"w+"` creates the file or empties it; on failure `g_db_file` becomes `NULL`. -/
def fopen (p : Process) (pathname : String) (mode : Mode) : Process :=
  let (o, w1) := nextOutcome p.world
  match mode, o, p.files.lookup pathname with
  | Mode.r_plus, none, some bytes =>
    { p with world := { w1 with g_db_file := some { contents := bytes, pos := 0 } },
             pathname := pathname, closed := false }
  | Mode.w_plus, none, _ =>
    { p with world := { w1 with g_db_file := some { contents := [], pos := 0 } },
             files := (pathname, []) :: p.files.filter (fun e => !(e.1 == pathname)),
             pathname := pathname, closed := false }
  | _, _, _ => { p with world := { w1 with g_db_file := none }, closed := false }

/-- The call `fclose(g_db_file)` on an open stream: the bytes of the stream become the bytes
of the file, and the stream is closed while `g_db_file` keeps pointing to it. -/
def fclose (p : Process) : Int × Process :=
  let (o, w1) := nextOutcome p.world
  match w1.g_db_file, o with
  | some f, none =>
    (0, { p with world := w1,
                 files := (p.pathname, f.contents) ::
                   p.files.filter (fun e => !(e.1 == p.pathname)),
                 closed := true })
  | _, _ => (-1, { p with world := w1, closed := true })

/-- First three statements of `open_db` (file.c, lines 21-23): the previous stream is closed
and the previous pages are released.  `none` is undefined behaviour: `fclose` on a stream
that is closed already, or `free_page` on a page that is released already. -/
def open_db_clean (p : Process) : Option Process :=
  if (p.world.g_db_file.isSome && p.closed) || p.header_freed || p.root_freed then none
  else
    let p1 := if p.world.g_db_file.isSome then (fclose p).2 else p
    some { p1 with
      world := { p1.world with g_header_page := none, g_root_page := none },
      header_freed := p1.world.g_header_page.isSome,
      root_freed := p1.world.g_root_page.isSome }

/-- The branch of `open_db` for an existing file (file.c, lines 27-30): the header page is
read from offset 0 and the root page from the root offset that the header records. -/
def open_db_load (PAGE_SIZE : Nat) (p : Process) : Int × Process :=
  match read_page PAGE_SIZE p.world 0 with
  | (none, w1) =>
    (-1, { p with world := { w1 with g_header_page := none }, header_freed := false })
  | (some hp, w1) =>
    match read_page PAGE_SIZE { w1 with g_header_page := some hp } (root_page_offset hp) with
    | (none, w2) =>
      (-1, { p with world := { w2 with g_root_page := none },
                    header_freed := false, root_freed := false })
    | (some rp, w2) =>
      (0, { p with world := { w2 with g_root_page := some rp },
                   header_freed := false, root_freed := false })

/-- The assignment `g_header_page = get_new_page(HEADER_PAGE)` (file.c, line 37). -/
def open_db_new_header (PAGE_SIZE sizeof_HeaderPage : Nat) (L : NodeLayout) (p : Process) :
    Option Process :=
  (get_new_page PAGE_SIZE sizeof_HeaderPage L p.world PAGE_TYPE.HEADER_PAGE).map fun r =>
    { p with world := { r.2 with g_header_page := r.1 }, header_freed := false }

/-- The assignment `g_root_page = get_new_page(INTERNAL_PAGE)` (file.c, line 38). -/
def open_db_new_root (PAGE_SIZE sizeof_HeaderPage : Nat) (L : NodeLayout) (p : Process) :
    Option Process :=
  (get_new_page PAGE_SIZE sizeof_HeaderPage L p.world PAGE_TYPE.INTERNAL_PAGE).map fun r =>
    { p with world := { r.2 with g_root_page := r.1 }, root_freed := false }

/-- The call `write_page(page)` for a pointer that may be `NULL`: with no file open the
function returns -1 before it looks at the page (file.c, line 95); otherwise `NULL` is
dereferenced at line 96, which is undefined behaviour (`none`). -/
def write_page_ptr (PAGE_SIZE : Nat) (w : World) (page : Option Page) : Option (Int × World) :=
  match page with
  | some pg => some (write_page PAGE_SIZE w pg)
  | none => if w.g_db_file.isSome then none else some (-1, w)

/-- The two writes of `open_db` (file.c, lines 39-40), the second one made only when the
first returned 0. -/
def open_db_write (PAGE_SIZE : Nat) (p : Process) : Option (Int × Process) :=
  (write_page_ptr PAGE_SIZE p.world p.world.g_header_page).bind fun r1 =>
    if r1.1 ≠ 0 then some (-1, { p with world := r1.2 })
    else
      (write_page_ptr PAGE_SIZE r1.2 r1.2.g_root_page).map fun r2 =>
        (if r2.1 ≠ 0 then -1 else 0, { p with world := r2.2 })

/-- The branch of `open_db` for a new file (file.c, lines 37-40): a header page and an
internal page are built, then both are written.  `none` is undefined behaviour (see
`get_new_page` and `write_page_ptr`). -/
def open_db_create (PAGE_SIZE sizeof_HeaderPage : Nat) (L : NodeLayout) (p : Process) :
    Option (Int × Process) :=
  ((open_db_new_header PAGE_SIZE sizeof_HeaderPage L p).bind
    (open_db_new_root PAGE_SIZE sizeof_HeaderPage L)).bind (open_db_write PAGE_SIZE)

/-- `open_db` (file.c, lines 19-44).  `none` is undefined behaviour (see `open_db_clean` and
`open_db_create`). -/
def open_db (PAGE_SIZE sizeof_HeaderPage : Nat) (L : NodeLayout) (p : Process)
    (pathname : String) : Option (Int × Process) :=
  match open_db_clean p with
  | none => none
  | some p1 =>
    let p2 := fopen p1 pathname Mode.r_plus
    if p2.world.g_db_file.isSome then some (open_db_load PAGE_SIZE p2)
    else
      let p3 := fopen p2 pathname Mode.w_plus
      if p3.world.g_db_file.isSome then open_db_create PAGE_SIZE sizeof_HeaderPage L p3
      else some (-1, p3)

/-- `close_db` (file.c, lines 49-52).  `none` is undefined behaviour: `fclose` on `NULL` or on
a stream that is closed already. -/
def close_db (p : Process) : Option (Int × Process) :=
  match p.world.g_db_file with
  | none => none
  | some _ =>
    if p.closed then none
    else
      let (rc, p1) := fclose { p with world := fflush p.world }
      some (if rc ≠ 0 then -1 else 0, p1)

/-! ## Predicates used by the specification -/

/-- Walk of the free list stored in the file bytes `c`, from offset `off`, with `fuel` steps
allowed: the walk reaches the sentinel 0, and every offset met before is a non-negative
multiple of `PAGE_SIZE` below `bound`. -/
def chain_ok (PAGE_SIZE : Nat) (c : List Nat) (bound : Int) : Nat → Int → Bool
  | 0, off => decide (off = 0)
  | fuel + 1, off =>
    decide (off = 0) ||
      (decide (off % (PAGE_SIZE : Int) = 0) && decide (0 ≤ off) && decide (off < bound) &&
        chain_ok PAGE_SIZE c bound fuel (getI64 c off.toNat))

/-- Free-list bound invariant for the file bytes `c` and the cached header `hp`: the chain
that starts at the header's `free_page_offset` ends in 0 after finitely many steps and
stays on page offsets below `number_of_pages * PAGE_SIZE`. -/
def free_list_ok (PAGE_SIZE : Nat) (c : List Nat) (hp : Page) : Prop :=
  ∃ fuel, chain_ok PAGE_SIZE c (number_of_pages hp * PAGE_SIZE) fuel (free_page_offset hp) = true

/-- What `read_page` transfers at `offset` once the tests of lines 70-71 are passed: the
result of its `fread` call (number of items, buffer, state). -/
def read_page_transfer (PAGE_SIZE : Nat) (w : World) (offset : Int) :
    Nat × List Nat × World :=
  fread (fseeko w offset).2 (List.replicate PAGE_SIZE 0) PAGE_SIZE 1

/-- The page at `offset` is read in full: a file is open, the offset passes the test of
line 71, `fseeko` succeeds and `fread` delivers its one item. -/
def read_in_full (PAGE_SIZE : Nat) (w : World) (offset : Int) : Prop :=
  w.g_db_file.isSome = true ∧ offset % 8 = 0 ∧ (fseeko w offset).1 = 0 ∧
    (read_page_transfer PAGE_SIZE w offset).1 = 1

/-- The header as `get_free_page` modifies it after the head page was transferred
(file.c, line 148): the free-list head becomes the next link found in the buffer. -/
def get_free_page_header (PAGE_SIZE : Nat) (w : World) (hp : Page) : Page :=
  set_free_page_offset hp
    (getI64 (read_page_transfer PAGE_SIZE w (free_page_offset hp)).2.1 0)

/-- What a library call leaves alone: the cached pages and the uninitialised memory. -/
def sameMemory (w w1 : World) : Prop :=
  w1.g_header_page = w.g_header_page ∧ w1.g_root_page = w.g_root_page ∧ w1.junk = w.junk

/-! ## Concrete inputs (page size 4096) -/

/-- A newly created, empty file that is open; no library call is set to fail. -/
def worldA : World :=
  { g_db_file := some { contents := [], pos := 0 }, g_header_page := none,
    g_root_page := none, script := [], trace := [], junk := [] }

/-- A page for offset 0 whose 4096 bytes are all 7. -/
def pageA : Page := { ptr_page := List.replicate 4096 7, offset := 0 }

/-- An open file of two zeroed pages; no library call is set to fail. -/
def worldB : World :=
  { g_db_file := some { contents := List.replicate 8192 0, pos := 0 }, g_header_page := none,
    g_root_page := none, script := [], trace := [], junk := [] }

/-- A page for offset 8, a multiple of 8 that is not a multiple of the page size. -/
def pageB : Page := { ptr_page := List.replicate 4096 7, offset := 8 }

/-- A page for offset 4100, which is not a multiple of 8. -/
def pageC : Page := { ptr_page := List.replicate 4096 7, offset := 4100 }

/-- The header page that the `HEADER_PAGE` branch of `get_new_page` builds for a 4096-byte
`HeaderPage`: free-list head 0, root offset 0, page count 1. -/
def headerD : Page := get_new_page_header 4096

/-- An open file that holds the header page only, with `headerD` cached as `g_header_page`;
no library call is set to fail. -/
def worldD : World :=
  { g_db_file := some { contents := headerD.ptr_page, pos := 0 },
    g_header_page := some headerD, g_root_page := none, script := [], trace := [],
    junk := List.replicate 4088 170 }

/-- A header with a non-empty free list: head 4096, page count 2. -/
def headerE : Page := set_free_page_offset (set_number_of_pages (get_new_page_header 4096) 2) 4096

/-- An open file of two pages, the header page and a zeroed free page at offset 4096 (its next
link is 0), with `headerE` cached; no library call is set to fail. -/
def worldE : World :=
  { g_db_file := some { contents := headerE.ptr_page ++ List.replicate 4096 0, pos := 0 },
    g_header_page := some headerE, g_root_page := none, script := [], trace := [],
    junk := [] }

/-- The state `worldD` with a failing header write: the next `fseeko` succeeds, the `fwrite`
after it stops after 100 bytes. -/
def worldF : World := { worldD with script := [none, some 100] }

/-- The state `worldE` with a failing header write: the first three library calls (seek,
read, seek) succeed, the `fwrite` after them stops after 100 bytes. -/
def worldG : World := { worldE with script := [none, none, none, some 100] }

/-- The state in which the loop of `make_free_pages(2)` would start from `worldD`: the header
with head 4096 and count 3 is cached and written over page 0. -/
def worldL : World :=
  { worldD with
    g_db_file := some
      { contents := writeAt headerD.ptr_page 0 (make_free_pages_header 4096 headerD 2).ptr_page,
        pos := 4096 },
    g_header_page := some (make_free_pages_header 4096 headerD 2),
    trace := [LibCall.seek 0 true, LibCall.write 0 4096 4096] }

/-- A node layout with the leaf flag in bytes 0-3 and the key count in bytes 4-7. -/
def layoutN : NodeLayout := { is_leaf_at := 0, number_of_keys_at := 4 }

/-- A state with no file open and no page cached. -/
def worldN : World :=
  { g_db_file := none, g_header_page := none, g_root_page := none, script := [], trace := [],
    junk := [] }

/-- A page for offset 4096 whose 4096 bytes are all 7. -/
def pageW : Page := { ptr_page := List.replicate 4096 7, offset := 4096 }

/-- A state for a page size of 1 (which lets `write_page` return 0): an open empty file, a
new 24-byte header cached, and a script in which the header write succeeds (seek, write) and
the one free-page write that reaches the library (seek to 16) fails in `fwrite`. -/
def worldP : World :=
  { g_db_file := some { contents := [], pos := 0 },
    g_header_page := some (get_new_page_header 24), g_root_page := none,
    script := [none, none, none, some 0], trace := [], junk := [] }

/-- The state `worldD` with a script in which the header write runs normally (seek, write)
and the first write of a free page would fail: its `fseeko` succeeds and its `fwrite` writes
nothing. -/
def worldQ : World := { worldD with script := [none, none, none, some 0] }

/-- A process that has not opened a database yet, on a file system without files; no library
call is set to fail. -/
def processN : Process :=
  { world := worldN, files := [], pathname := "", closed := false, header_freed := false,
    root_freed := false }

/-! ## Lemmas on 8-byte fields -/

theorem wrap64_range (v : Int) :
    -9223372036854775808 ≤ wrap64 v ∧ wrap64 v < 9223372036854775808 := by
  unfold wrap64; omega

theorem wrap64_of_range (v : Int) (h1 : -9223372036854775808 ≤ v)
    (h2 : v < 9223372036854775808) : wrap64 v = v := by
  unfold wrap64; omega

theorem wrap64_idem (v : Int) : wrap64 (wrap64 v) = wrap64 v := by
  unfold wrap64; omega

theorem wrap64_add_sub (a n : Int) : wrap64 (wrap64 (a + n) - n) = wrap64 a := by
  unfold wrap64; omega

theorem length_le_bytes (v : Int) : (le_bytes v).length = 8 := by
  simp [le_bytes]

theorem le_value_le_bytes (v : Int) : le_value (le_bytes v) = wrap64 v := by
  have h0 : (0 : Int) ≤ v % 18446744073709551616 := Int.emod_nonneg _ (by decide)
  have h1 : v % 18446744073709551616 < 18446744073709551616 := Int.emod_lt_of_pos _ (by decide)
  obtain ⟨u, hu⟩ := Int.eq_ofNat_of_zero_le h0
  have hlt : u < 18446744073709551616 := by omega
  have hsum : u % 256 + 256 * (u / 256 % 256) + 65536 * (u / 65536 % 256) +
      16777216 * (u / 16777216 % 256) + 4294967296 * (u / 4294967296 % 256) +
      1099511627776 * (u / 1099511627776 % 256) +
      281474976710656 * (u / 281474976710656 % 256) +
      72057594037927936 * (u / 72057594037927936 % 256) = u := by omega
  simp only [le_value, le_bytes, hu, Int.toNat_ofNat, List.getD_cons_zero, List.getD_cons_succ,
    hsum]
  unfold wrap64
  simp only [Int.ofNat_eq_coe]
  omega

theorem getI64_setI64_same (buf : List Nat) (off : Nat) (v : Int) (h : off ≤ buf.length) :
    getI64 (setI64 buf off v) off = wrap64 v := by
  have hl : (buf.take off).length = off := by simp [h]
  have h8 : (le_bytes v).length = 8 := length_le_bytes v
  unfold getI64 setI64
  rw [List.append_assoc, List.drop_left' hl, List.take_left' h8, le_value_le_bytes]

theorem getI64_setI64_below (buf : List Nat) (off off' : Nat) (v : Int)
    (h : off' + 8 ≤ off) (hb : off ≤ buf.length) :
    getI64 (setI64 buf off v) off' = getI64 buf off' := by
  have hl : (buf.take off).length = off := by simp [hb]
  unfold getI64 setI64
  rw [List.append_assoc, List.drop_append_of_le_length (by omega),
    List.take_append_of_le_length (by simp; omega), List.drop_take, List.take_take]
  congr 1
  rw [show min 8 (off - off') = 8 by omega]

theorem getI64_setI64_above (buf : List Nat) (off off' : Nat) (v : Int)
    (h : off + 8 ≤ off') (hb : off ≤ buf.length) :
    getI64 (setI64 buf off v) off' = getI64 buf off' := by
  have hl : (buf.take off ++ le_bytes v).length = off + 8 := by
    simp [hb, length_le_bytes]
  unfold getI64 setI64
  obtain ⟨k, rfl⟩ : ∃ k, off' = off + 8 + k := ⟨off' - (off + 8), by omega⟩
  rw [← hl, List.drop_append, hl, List.drop_drop]

theorem length_setI64 (buf : List Nat) (off : Nat) (v : Int) (h : off + 8 ≤ buf.length) :
    (setI64 buf off v).length = buf.length := by
  simp [setI64, length_le_bytes]; omega

theorem wrap64_getI64 (buf : List Nat) (off : Nat) : wrap64 (getI64 buf off) = getI64 buf off := by
  unfold getI64 le_value; exact wrap64_idem _

/-! ## Lemmas on the bytes of the file -/

theorem writeAt_nil_zero (data : List Nat) : writeAt [] 0 data = data := by
  unfold writeAt
  split
  · rename_i h; simp [List.isEmpty_iff] at h; exact h.symm
  · simp

theorem length_writeAt (c : List Nat) (pos : Nat) (data : List Nat) (hd : data ≠ []) :
    (writeAt c pos data).length = max (pos + data.length) c.length := by
  unfold writeAt
  have he : data.isEmpty = false := by
    cases data with
    | nil => exact absurd rfl hd
    | cons a t => rfl
  rw [he]
  simp only [Bool.false_eq_true, if_false, List.length_append, List.length_take,
    List.length_replicate, List.length_drop]
  omega

theorem writeAt_drop_beyond (c : List Nat) (pos : Nat) (data : List Nat) (off : Nat)
    (h : pos + data.length ≤ off) : (writeAt c pos data).drop off = c.drop off := by
  unfold writeAt
  split
  · rfl
  · have hl : (c.take pos ++ List.replicate (pos - c.length) 0 ++ data).length
        = pos + data.length := by
      simp only [List.length_append, List.length_take, List.length_replicate]; omega
    obtain ⟨k, rfl⟩ : ∃ k, off = pos + data.length + k := ⟨off - (pos + data.length), by omega⟩
    rw [← hl, List.drop_append, hl, List.drop_drop]

theorem writeAt_getElem_pos (c : List Nat) (pos : Nat) (data : List Nat) (hd : data ≠ []) :
    (writeAt c pos data)[pos]? = data[0]? := by
  unfold writeAt
  have he : data.isEmpty = false := by
    cases data with
    | nil => exact absurd rfl hd
    | cons a t => rfl
  have hl : (c.take pos ++ List.replicate (pos - c.length) 0).length = pos := by
    simp only [List.length_append, List.length_take, List.length_replicate]; omega
  rw [he]
  simp only [Bool.false_eq_true, if_false]
  rw [List.append_assoc, List.getElem?_append_right (by omega), hl, Nat.sub_self,
    List.getElem?_append_left (List.length_pos.mpr hd)]

theorem getI64_writeAt_same (c : List Nat) (pos : Nat) (data : List Nat)
    (hd : 8 ≤ data.length) : getI64 (writeAt c pos data) pos = getI64 data 0 := by
  have he : data.isEmpty = false := by
    cases data with
    | nil => simp at hd
    | cons a t => rfl
  have hl : (c.take pos ++ List.replicate (pos - c.length) 0).length = pos := by
    simp only [List.length_append, List.length_take, List.length_replicate]; omega
  unfold getI64 writeAt
  rw [he]
  simp only [Bool.false_eq_true, if_false, List.drop_zero]
  rw [List.append_assoc, List.drop_left' hl, List.take_append_of_le_length hd]

theorem getI64_writeAt_below (c : List Nat) (pos off : Nat) (data : List Nat)
    (h : off + 8 ≤ pos) (hc : pos ≤ c.length) :
    getI64 (writeAt c pos data) off = getI64 c off := by
  unfold getI64 writeAt
  split
  · rfl
  · have hl : (c.take pos).length = pos := by simp [hc]
    have h1 : off ≤ (c.take pos).length := by rw [hl]; omega
    have h2 : 8 ≤ ((c.take pos).drop off).length := by rw [List.length_drop, hl]; omega
    rw [List.append_assoc, List.append_assoc, List.drop_append_of_le_length h1,
      List.take_append_of_le_length h2, List.drop_take, List.take_take]
    rw [show min 8 (pos - off) = 8 by omega]

/-! ## Lemmas on the library calls and on page I/O -/

theorem fwrite_count_le_one (w : World) (buf : List Nat) (size : Nat) :
    (fwrite w buf size 1).1 ≤ 1 := by
  unfold fwrite
  rcases hno : nextOutcome w with ⟨o, w1⟩
  simp only
  cases hf : w1.g_db_file with
  | none => simp
  | some f =>
    simp only
    split
    · exact Nat.zero_le _
    · rename_i hs
      have hpos : 0 < size := Nat.pos_of_ne_zero hs
      apply Nat.le_of_lt_succ
      rw [Nat.div_lt_iff_lt_mul hpos]
      have : ∀ limit, limit ≤ size →
          ((buf ++ List.replicate (size * 1 - buf.length) 0).take limit).length < (1 + 1) * size := by
        intro limit hl
        rw [List.length_take]; omega
      cases o with
      | none => exact this _ (by simp)
      | some k => exact this _ (by simp)

theorem fread_count_le_one (w : World) (buf : List Nat) (size : Nat) :
    (fread w buf size 1).1 ≤ 1 := by
  unfold fread
  rcases hno : nextOutcome w with ⟨o, w1⟩
  simp only
  cases hf : w1.g_db_file with
  | none => simp
  | some f =>
    simp only
    split
    · exact Nat.zero_le _
    · rename_i hs
      have hpos : 0 < size := Nat.pos_of_ne_zero hs
      apply Nat.le_of_lt_succ
      rw [Nat.div_lt_iff_lt_mul hpos]
      have : ∀ limit, limit ≤ size →
          ((f.contents.drop f.pos).take limit).length < (1 + 1) * size := by
        intro limit hl
        rw [List.length_take]; omega
      cases o with
      | none => exact this _ (by simp)
      | some k => exact this _ (by simp)

/-- For a page size of at least 2 `write_page` returns -1 on every input: `fwrite` returns
the number of items written, at most 1, which is compared with `PAGE_SIZE`. -/
theorem write_page_fails (PAGE_SIZE : Nat) (h : 2 ≤ PAGE_SIZE) (w : World) (page : Page) :
    (write_page PAGE_SIZE w page).1 = -1 := by
  unfold write_page
  cases w.g_db_file with
  | none => rfl
  | some f =>
    simp only
    split
    · rfl
    · split
      · rfl
      · have hc := fwrite_count_le_one (fseeko w page.offset).2 page.ptr_page PAGE_SIZE
        split
        · rfl
        · rename_i hcnt
          exfalso; apply hcnt; omega

/-- For a page size of at least 2 `read_page` returns `NULL` on every input. -/
theorem read_page_fails (PAGE_SIZE : Nat) (h : 2 ≤ PAGE_SIZE) (w : World) (offset : Int) :
    (read_page PAGE_SIZE w offset).1 = none := by
  unfold read_page
  cases w.g_db_file with
  | none => rfl
  | some f =>
    simp only
    split
    · rfl
    · split
      · rfl
      · have hc := fread_count_le_one (fseeko w offset).2 (List.replicate PAGE_SIZE 0) PAGE_SIZE
        split
        · rfl
        · rename_i hcnt
          exfalso; apply hcnt; omega

theorem sameMemory_refl (w : World) : sameMemory w w := ⟨rfl, rfl, rfl⟩

theorem sameMemory_trans {a b c : World} (h1 : sameMemory a b) (h2 : sameMemory b c) :
    sameMemory a c :=
  ⟨h2.1.trans h1.1, h2.2.1.trans h1.2.1, h2.2.2.trans h1.2.2⟩

theorem nextOutcome_snd (w : World) :
    (nextOutcome w).2.g_db_file = w.g_db_file ∧ (nextOutcome w).2.trace = w.trace ∧
      sameMemory w (nextOutcome w).2 := by
  unfold nextOutcome sameMemory
  cases w.script <;> simp

theorem nextOutcome_file (w : World) : (nextOutcome w).2.g_db_file = w.g_db_file :=
  (nextOutcome_snd w).1

theorem fseeko_sameMemory (w : World) (offset : Int) : sameMemory w (fseeko w offset).2 := by
  have h := (nextOutcome_snd w).2.2
  unfold fseeko
  generalize nextOutcome w = p at h
  rcases p with ⟨o, w1⟩
  simp only at h ⊢
  cases w1.g_db_file with
  | none => exact h
  | some f => simp only; split <;> exact h

theorem fwrite_sameMemory (w : World) (buf : List Nat) (size nmemb : Nat) :
    sameMemory w (fwrite w buf size nmemb).2 := by
  have h := (nextOutcome_snd w).2.2
  unfold fwrite
  generalize nextOutcome w = p at h
  rcases p with ⟨o, w1⟩
  simp only at h ⊢
  cases w1.g_db_file with
  | none => exact h
  | some f => exact h

theorem fread_sameMemory (w : World) (buf : List Nat) (size nmemb : Nat) :
    sameMemory w (fread w buf size nmemb).2.2 := by
  have h := (nextOutcome_snd w).2.2
  unfold fread
  generalize nextOutcome w = p at h
  rcases p with ⟨o, w1⟩
  simp only at h ⊢
  cases w1.g_db_file with
  | none => exact h
  | some f => exact h

theorem write_page_sameMemory (PAGE_SIZE : Nat) (w : World) (page : Page) :
    sameMemory w (write_page PAGE_SIZE w page).2 := by
  unfold write_page
  cases w.g_db_file with
  | none => exact sameMemory_refl w
  | some f =>
    simp only
    have h1 := fseeko_sameMemory w page.offset
    have h2 := fwrite_sameMemory (fseeko w page.offset).2 page.ptr_page PAGE_SIZE 1
    split
    · exact sameMemory_refl w
    · split
      · exact h1
      · split
        · exact sameMemory_trans h1 h2
        · exact sameMemory_trans h1 h2

theorem read_page_sameMemory (PAGE_SIZE : Nat) (w : World) (offset : Int) :
    sameMemory w (read_page PAGE_SIZE w offset).2 := by
  unfold read_page
  cases w.g_db_file with
  | none => exact sameMemory_refl w
  | some f =>
    simp only
    have h1 := fseeko_sameMemory w offset
    have h2 := fread_sameMemory (fseeko w offset).2 (List.replicate PAGE_SIZE 0) PAGE_SIZE 1
    split
    · exact sameMemory_refl w
    · split
      · exact h1
      · split
        · exact sameMemory_trans h1 h2
        · exact sameMemory_trans h1 h2

theorem fseeko_file (w : World) (f : FileState) (offset : Int) (hf : w.g_db_file = some f) :
    ((fseeko w offset).1 = 0 ∧
        (fseeko w offset).2.g_db_file = some { f with pos := offset.toNat }) ∨
      ((fseeko w offset).1 ≠ 0 ∧ (fseeko w offset).2.g_db_file = some f) := by
  have h := nextOutcome_file w
  unfold fseeko
  generalize nextOutcome w = p at h
  rcases p with ⟨o, w1⟩
  simp only at h ⊢
  rw [h, hf]
  simp only
  split
  · right; exact ⟨by simp, rfl⟩
  · left; exact ⟨rfl, rfl⟩

theorem fwrite_file (w : World) (f : FileState) (buf : List Nat) (size : Nat)
    (hf : w.g_db_file = some f) :
    ∃ data : List Nat, data.length ≤ size ∧
      (fwrite w buf size 1).2.g_db_file =
        some { contents := writeAt f.contents f.pos data, pos := f.pos + data.length } := by
  have h := nextOutcome_file w
  unfold fwrite
  generalize nextOutcome w = p at h
  rcases p with ⟨o, w1⟩
  simp only at h ⊢
  rw [h, hf]
  simp only
  refine ⟨_, ?_, rfl⟩
  rw [List.length_take]
  cases o with
  | none => simp only; omega
  | some k => simp only; omega

theorem fread_file (w : World) (f : FileState) (buf : List Nat) (size nmemb : Nat)
    (hf : w.g_db_file = some f) :
    ∃ k, (fread w buf size nmemb).2.2.g_db_file = some { f with pos := k } := by
  have h := nextOutcome_file w
  unfold fread
  generalize nextOutcome w = p at h
  rcases p with ⟨o, w1⟩
  simp only at h ⊢
  rw [h, hf]
  exact ⟨_, rfl⟩

/-- File after `write_page`: the bytes are those before the call, or those with at most
`PAGE_SIZE` bytes written at the offset of the page. -/
theorem write_page_file (PAGE_SIZE : Nat) (w : World) (f : FileState) (page : Page)
    (hf : w.g_db_file = some f) :
    ∃ f1, (write_page PAGE_SIZE w page).2.g_db_file = some f1 ∧
      (f1.contents = f.contents ∨
        ∃ data : List Nat, data.length ≤ PAGE_SIZE ∧
          f1.contents = writeAt f.contents page.offset.toNat data) := by
  unfold write_page
  rw [hf]
  simp only
  split
  · exact ⟨f, hf, Or.inl rfl⟩
  · rcases fseeko_file w f page.offset hf with ⟨hrc, hfile⟩ | ⟨hrc, hfile⟩
    · rw [if_neg (by rw [hrc]; decide)]
      obtain ⟨data, hd, hw⟩ := fwrite_file (fseeko w page.offset).2 _ page.ptr_page PAGE_SIZE hfile
      split
      · exact ⟨_, hw, Or.inr ⟨data, hd, rfl⟩⟩
      · exact ⟨_, hw, Or.inr ⟨data, hd, rfl⟩⟩
    · rw [if_pos hrc]
      exact ⟨f, hfile, Or.inl rfl⟩

/-- The bytes of the file are not changed by `read_page`. -/
theorem read_page_file (PAGE_SIZE : Nat) (w : World) (f : FileState) (offset : Int)
    (hf : w.g_db_file = some f) :
    ∃ f1, (read_page PAGE_SIZE w offset).2.g_db_file = some f1 ∧ f1.contents = f.contents := by
  unfold read_page
  rw [hf]
  simp only
  split
  · exact ⟨f, hf, rfl⟩
  · rcases fseeko_file w f offset hf with ⟨hrc, hfile⟩ | ⟨hrc, hfile⟩
    · rw [if_neg (by rw [hrc]; decide)]
      obtain ⟨k, hk⟩ := fread_file (fseeko w offset).2 _ (List.replicate PAGE_SIZE 0)
        PAGE_SIZE 1 hfile
      split
      · exact ⟨_, hk, rfl⟩
      · exact ⟨_, hk, rfl⟩
    · rw [if_pos hrc]
      exact ⟨f, hfile, rfl⟩

/-- Run of `write_page` when no library call fails: the whole page is written at its
offset, and the result is -1 all the same (for a page size of at least 2). -/
theorem write_page_run (PAGE_SIZE : Nat) (h2 : 2 ≤ PAGE_SIZE) (w : World) (f : FileState)
    (page : Page) (hf : w.g_db_file = some f) (hs : w.script = [])
    (ha : page.offset % 8 = 0) (hn : 0 ≤ page.offset)
    (hl : page.ptr_page.length = PAGE_SIZE) :
    write_page PAGE_SIZE w page =
      (-1, { w with
        g_db_file := some { contents := writeAt f.contents page.offset.toNat page.ptr_page,
                            pos := page.offset.toNat + PAGE_SIZE },
        trace := w.trace ++ [LibCall.seek page.offset true,
                             LibCall.write page.offset.toNat PAGE_SIZE PAGE_SIZE] }) := by
  have hnn : ¬ page.offset < 0 := by omega
  have h0 : PAGE_SIZE ≠ 0 := by omega
  have h1 : ¬ (1 = PAGE_SIZE) := by omega
  have hp : 0 < PAGE_SIZE := by omega
  simp [write_page, fseeko, fwrite, nextOutcome, hf, hs, ha, hnn, h0, h1, hl,
    List.take_of_length_le, Nat.div_self hp]

/-- Run of `read_page` when no library call fails and the file holds a full page at
`offset`: the page is read, and the result is `NULL` all the same (for a page size of at
least 2). -/
theorem read_page_run (PAGE_SIZE : Nat) (h2 : 2 ≤ PAGE_SIZE) (w : World) (f : FileState)
    (offset : Int) (hf : w.g_db_file = some f) (hs : w.script = [])
    (ha : offset % 8 = 0) (hn : 0 ≤ offset)
    (hl : offset.toNat + PAGE_SIZE ≤ f.contents.length) :
    read_page PAGE_SIZE w offset =
      (none, { w with
        g_db_file := some { contents := f.contents, pos := offset.toNat + PAGE_SIZE },
        trace := w.trace ++ [LibCall.seek offset true,
                             LibCall.read offset.toNat PAGE_SIZE PAGE_SIZE] }) := by
  have hnn : ¬ offset < 0 := by omega
  have h0 : PAGE_SIZE ≠ 0 := by omega
  have h1 : ¬ (1 = PAGE_SIZE) := by omega
  have hp : 0 < PAGE_SIZE := by omega
  have hm : min PAGE_SIZE (f.contents.length - offset.toNat) = PAGE_SIZE := by omega
  simp [read_page, fseeko, fread, nextOutcome, hf, hs, ha, hnn, h0, h1, hl, hm,
    Nat.div_self hp]

/-- Result of `read_page` in terms of the transfer, when the page is read in full. -/
theorem read_page_of_read_in_full (PAGE_SIZE : Nat) (w : World) (offset : Int)
    (h : read_in_full PAGE_SIZE w offset) :
    read_page PAGE_SIZE w offset =
      if 1 ≠ PAGE_SIZE then (none, (read_page_transfer PAGE_SIZE w offset).2.2)
      else (some { ptr_page := (read_page_transfer PAGE_SIZE w offset).2.1, offset := offset },
            (read_page_transfer PAGE_SIZE w offset).2.2) := by
  obtain ⟨hopen, ha, hseek, hcnt⟩ := h
  unfold read_page
  cases hf : w.g_db_file with
  | none => rw [hf] at hopen; exact absurd hopen (by decide)
  | some f =>
    simp only [ha, ne_eq, not_true_eq_false, if_false, hseek]
    unfold read_page_transfer at hcnt ⊢
    rcases hfr : fread (fseeko w offset).2 (List.replicate PAGE_SIZE 0) PAGE_SIZE 1
      with ⟨cnt, buf, w2⟩
    rw [hfr] at hcnt
    simp only at hcnt
    subst hcnt
    rfl

/-- A page that the file holds at `offset` is read in full when the two library calls are
not set to fail. -/
theorem read_in_full_of_contents (PAGE_SIZE : Nat) (hp : 0 < PAGE_SIZE) (w : World)
    (f : FileState) (offset : Int) (rest : List (Option Nat)) (hf : w.g_db_file = some f)
    (hs : w.script = none :: none :: rest) (ha : offset % 8 = 0) (hn : 0 ≤ offset)
    (hl : offset.toNat + PAGE_SIZE ≤ f.contents.length) :
    read_in_full PAGE_SIZE w offset := by
  have hnn : ¬ offset < 0 := by omega
  have h0 : PAGE_SIZE ≠ 0 := by omega
  have hm : min PAGE_SIZE (f.contents.length - offset.toNat) = PAGE_SIZE := by omega
  refine ⟨by rw [hf]; rfl, ha, ?_, ?_⟩
  · simp [fseeko, nextOutcome, hf, hs, hnn]
  · simp [read_page_transfer, fseeko, fread, nextOutcome, hf, hs, hnn, h0, hm,
      Nat.div_self hp]

/-! ## Lemmas on the header fields -/

theorem free_page_offset_set_free_page_offset (p : Page) (v : Int) :
    free_page_offset (set_free_page_offset p v) = wrap64 v :=
  getI64_setI64_same p.ptr_page 0 v (Nat.zero_le _)

theorem number_of_pages_set_free_page_offset (p : Page) (v : Int) :
    number_of_pages (set_free_page_offset p v) = number_of_pages p :=
  getI64_setI64_above p.ptr_page 0 16 v (by decide) (Nat.zero_le _)

theorem root_page_offset_set_free_page_offset (p : Page) (v : Int) :
    root_page_offset (set_free_page_offset p v) = root_page_offset p :=
  getI64_setI64_above p.ptr_page 0 8 v (by decide) (Nat.zero_le _)

theorem free_page_offset_set_number_of_pages (p : Page) (v : Int)
    (h : 16 ≤ p.ptr_page.length) :
    free_page_offset (set_number_of_pages p v) = free_page_offset p :=
  getI64_setI64_below p.ptr_page 16 0 v (by decide) h

theorem root_page_offset_set_number_of_pages (p : Page) (v : Int)
    (h : 16 ≤ p.ptr_page.length) :
    root_page_offset (set_number_of_pages p v) = root_page_offset p :=
  getI64_setI64_below p.ptr_page 16 8 v (by decide) h

theorem number_of_pages_set_number_of_pages (p : Page) (v : Int)
    (h : 16 ≤ p.ptr_page.length) :
    number_of_pages (set_number_of_pages p v) = wrap64 v :=
  getI64_setI64_same p.ptr_page 16 v h

theorem free_page_offset_set_root_page_offset (p : Page) (v : Int)
    (h : 8 ≤ p.ptr_page.length) :
    free_page_offset (set_root_page_offset p v) = free_page_offset p :=
  getI64_setI64_below p.ptr_page 8 0 v (by decide) h

theorem root_page_offset_set_root_page_offset (p : Page) (v : Int)
    (h : 8 ≤ p.ptr_page.length) :
    root_page_offset (set_root_page_offset p v) = wrap64 v :=
  getI64_setI64_same p.ptr_page 8 v h

theorem number_of_pages_set_root_page_offset (p : Page) (v : Int)
    (h : 8 ≤ p.ptr_page.length) :
    number_of_pages (set_root_page_offset p v) = number_of_pages p :=
  getI64_setI64_above p.ptr_page 8 16 v (by decide) h

theorem length_set_free_page_offset (p : Page) (v : Int) (h : 8 ≤ p.ptr_page.length) :
    (set_free_page_offset p v).ptr_page.length = p.ptr_page.length :=
  length_setI64 p.ptr_page 0 v h

theorem length_set_root_page_offset (p : Page) (v : Int) (h : 16 ≤ p.ptr_page.length) :
    (set_root_page_offset p v).ptr_page.length = p.ptr_page.length :=
  length_setI64 p.ptr_page 8 v h

theorem length_set_number_of_pages (p : Page) (v : Int) (h : 24 ≤ p.ptr_page.length) :
    (set_number_of_pages p v).ptr_page.length = p.ptr_page.length :=
  length_setI64 p.ptr_page 16 v h

theorem offset_set_free_page_offset (p : Page) (v : Int) :
    (set_free_page_offset p v).offset = p.offset := rfl

theorem offset_set_number_of_pages (p : Page) (v : Int) :
    (set_number_of_pages p v).offset = p.offset := rfl

theorem wrap64_free_page_offset (p : Page) : wrap64 (free_page_offset p) = free_page_offset p :=
  wrap64_getI64 _ _

theorem wrap64_number_of_pages (p : Page) : wrap64 (number_of_pages p) = number_of_pages p :=
  wrap64_getI64 _ _

/-- Fields of the header that `make_free_pages` writes. -/
theorem make_free_pages_header_fields (PAGE_SIZE : Nat) (hp : Page) (n : Int)
    (h : 24 ≤ hp.ptr_page.length) :
    free_page_offset (make_free_pages_header PAGE_SIZE hp n)
        = wrap64 (number_of_pages hp * PAGE_SIZE) ∧
      number_of_pages (make_free_pages_header PAGE_SIZE hp n)
        = wrap64 (number_of_pages hp + n) ∧
      root_page_offset (make_free_pages_header PAGE_SIZE hp n) = root_page_offset hp ∧
      (make_free_pages_header PAGE_SIZE hp n).ptr_page.length = hp.ptr_page.length ∧
      (make_free_pages_header PAGE_SIZE hp n).offset = hp.offset := by
  have h1 : (set_free_page_offset hp (number_of_pages hp * PAGE_SIZE)).ptr_page.length
      = hp.ptr_page.length := length_set_free_page_offset _ _ (by omega)
  unfold make_free_pages_header
  simp only
  refine ⟨?_, ?_, ?_, ?_, rfl⟩
  · rw [free_page_offset_set_number_of_pages _ _ (by omega),
      free_page_offset_set_free_page_offset]
  · rw [number_of_pages_set_number_of_pages _ _ (by omega),
      number_of_pages_set_free_page_offset]
  · rw [root_page_offset_set_number_of_pages _ _ (by omega),
      root_page_offset_set_free_page_offset]
  · rw [length_set_number_of_pages _ _ (by omega), h1]

/-- The undo of lines 118-119 restores the three header fields. -/
theorem make_free_pages_undo_fields (PAGE_SIZE : Nat) (hp : Page) (n : Int)
    (h : 24 ≤ hp.ptr_page.length) :
    free_page_offset
        (make_free_pages_undo (make_free_pages_header PAGE_SIZE hp n) (free_page_offset hp) n)
        = free_page_offset hp ∧
      number_of_pages
        (make_free_pages_undo (make_free_pages_header PAGE_SIZE hp n) (free_page_offset hp) n)
        = number_of_pages hp ∧
      root_page_offset
        (make_free_pages_undo (make_free_pages_header PAGE_SIZE hp n) (free_page_offset hp) n)
        = root_page_offset hp ∧
      (make_free_pages_undo (make_free_pages_header PAGE_SIZE hp n)
        (free_page_offset hp) n).ptr_page.length = hp.ptr_page.length ∧
      (make_free_pages_undo (make_free_pages_header PAGE_SIZE hp n)
        (free_page_offset hp) n).offset = hp.offset := by
  obtain ⟨_, h2, h3, h4, h5⟩ := make_free_pages_header_fields PAGE_SIZE hp n h
  have hl : (set_free_page_offset (make_free_pages_header PAGE_SIZE hp n)
      (free_page_offset hp)).ptr_page.length = hp.ptr_page.length := by
    rw [length_set_free_page_offset _ _ (by omega), h4]
  unfold make_free_pages_undo
  simp only
  refine ⟨?_, ?_, ?_, ?_, ?_⟩
  · rw [free_page_offset_set_number_of_pages _ _ (by omega),
      free_page_offset_set_free_page_offset, wrap64_free_page_offset]
  · rw [number_of_pages_set_number_of_pages _ _ (by omega),
      number_of_pages_set_free_page_offset, h2, wrap64_add_sub, wrap64_number_of_pages]
  · rw [root_page_offset_set_number_of_pages _ _ (by omega),
      root_page_offset_set_free_page_offset, h3]
  · rw [length_set_number_of_pages _ _ (by omega), hl]
  · rw [offset_set_number_of_pages, offset_set_free_page_offset, h5]

/-- Fields of the header built by the `HEADER_PAGE` branch of `get_new_page`. -/
theorem get_new_page_header_fields (sz : Nat) (h : 24 ≤ sz) :
    free_page_offset (get_new_page_header sz) = 0 ∧
      root_page_offset (get_new_page_header sz) = 0 ∧
      number_of_pages (get_new_page_header sz) = 1 ∧
      (get_new_page_header sz).ptr_page.length = sz ∧
      (get_new_page_header sz).offset = 0 := by
  have l0 : (⟨List.replicate sz 0, 0⟩ : Page).ptr_page.length = sz := List.length_replicate _ _
  have l1 : (set_free_page_offset ⟨List.replicate sz 0, 0⟩ 0).ptr_page.length = sz := by
    rw [length_set_free_page_offset _ _ (by omega), l0]
  have l2 : (set_root_page_offset (set_free_page_offset ⟨List.replicate sz 0, 0⟩ 0) 0
      ).ptr_page.length = sz := by
    rw [length_set_root_page_offset _ _ (by omega), l1]
  unfold get_new_page_header
  simp only
  refine ⟨?_, ?_, ?_, ?_, rfl⟩
  · rw [free_page_offset_set_number_of_pages _ _ (by omega),
      free_page_offset_set_root_page_offset _ _ (by omega),
      free_page_offset_set_free_page_offset]
    rfl
  · rw [root_page_offset_set_number_of_pages _ _ (by omega),
      root_page_offset_set_root_page_offset _ _ (by omega)]
    rfl
  · rw [number_of_pages_set_number_of_pages _ _ (by omega)]
    rfl
  · rw [length_set_number_of_pages _ _ (by omega), l2]

/-! ## Lemmas on the free-list manager -/

/-- When the header write reports a failure, `make_free_pages` returns -1 in the state
left by that write, with the header fields undone. -/
theorem make_free_pages_of_write_fails (PAGE_SIZE : Nat) (w : World) (hp : Page) (n : Int)
    (hw : w.g_header_page = some hp)
    (hfail : (write_page PAGE_SIZE
      { w with g_header_page := some (make_free_pages_header PAGE_SIZE hp n) }
      (make_free_pages_header PAGE_SIZE hp n)).1 ≠ 0) :
    make_free_pages PAGE_SIZE w n =
      some (-1, { (write_page PAGE_SIZE
          { w with g_header_page := some (make_free_pages_header PAGE_SIZE hp n) }
          (make_free_pages_header PAGE_SIZE hp n)).2 with
        g_header_page := some (make_free_pages_undo (make_free_pages_header PAGE_SIZE hp n)
          (free_page_offset hp) n) }) := by
  unfold make_free_pages
  rw [hw]
  simp only
  rw [if_pos hfail]

/-- For a page size of at least 2 every call of `make_free_pages` takes the failure
branch. -/
theorem make_free_pages_fails (PAGE_SIZE : Nat) (h2 : 2 ≤ PAGE_SIZE) (w : World) (hp : Page)
    (n : Int) (hw : w.g_header_page = some hp) :
    make_free_pages PAGE_SIZE w n =
      some (-1, { (write_page PAGE_SIZE
          { w with g_header_page := some (make_free_pages_header PAGE_SIZE hp n) }
          (make_free_pages_header PAGE_SIZE hp n)).2 with
        g_header_page := some (make_free_pages_undo (make_free_pages_header PAGE_SIZE hp n)
          (free_page_offset hp) n) }) := by
  apply make_free_pages_of_write_fails PAGE_SIZE w hp n hw
  rw [write_page_fails PAGE_SIZE h2]
  decide

/-- Run of `make_free_pages` when no library call fails: the modified header is written
over page 0, the call returns -1 and the header fields in memory are undone. -/
theorem make_free_pages_run (PAGE_SIZE : Nat) (h24 : 24 ≤ PAGE_SIZE) (w : World)
    (f : FileState) (hp : Page) (n : Int) (hw : w.g_header_page = some hp)
    (hf : w.g_db_file = some f) (hs : w.script = []) (hoff : hp.offset = 0)
    (hlen : hp.ptr_page.length = PAGE_SIZE) :
    make_free_pages PAGE_SIZE w n =
      some (-1, { w with
        g_db_file := some
          { contents := writeAt f.contents 0 (make_free_pages_header PAGE_SIZE hp n).ptr_page,
            pos := PAGE_SIZE },
        g_header_page := some (make_free_pages_undo (make_free_pages_header PAGE_SIZE hp n)
          (free_page_offset hp) n),
        trace := w.trace ++ [LibCall.seek 0 true, LibCall.write 0 PAGE_SIZE PAGE_SIZE] }) := by
  obtain ⟨-, -, -, hl, ho⟩ := make_free_pages_header_fields PAGE_SIZE hp n (by omega)
  rw [make_free_pages_fails PAGE_SIZE (by omega) w hp n hw,
    write_page_run PAGE_SIZE (by omega)
      { w with g_header_page := some (make_free_pages_header PAGE_SIZE hp n) } f
      (make_free_pages_header PAGE_SIZE hp n) hf hs (by rw [ho, hoff]; decide)
      (by rw [ho, hoff]) (by rw [hl, hlen])]
  simp only [ho, hoff, Int.toNat_zero, Nat.zero_add]

/-- One iteration of the loop of `make_free_pages`. -/
theorem make_free_pages_loop_step (PAGE_SIZE : Nat) (prev n : Int) (fuel : Nat) (i : Int)
    (w : World) (hp : Page) (hw : w.g_header_page = some hp) (hi : i ≤ n) :
    make_free_pages_loop PAGE_SIZE prev n (fuel + 1) i w =
      make_free_pages_loop PAGE_SIZE prev n fuel (i + 1)
        (write_page PAGE_SIZE w
          { ptr_page := le_bytes (if i = n then (number_of_pages hp + i) * PAGE_SIZE else prev)
              ++ w.junk.take (PAGE_SIZE - 8),
            offset := wrap64 ((number_of_pages hp + i - 1) * PAGE_SIZE) }).2 := by
  rw [make_free_pages_loop]
  simp only [hi, if_true, hw]

/-- State in which `get_free_page` reads the head of the free list, for a page size of at
least 2: either the state of the call (non-empty list), or the state left by the failed
`make_free_pages(10)`. -/
theorem get_free_page_extend_cases (PAGE_SIZE : Nat) (h2 : 2 ≤ PAGE_SIZE) (w : World)
    (hp : Page) (hw : w.g_header_page = some hp) :
    (free_page_offset hp ≠ 0 ∧ get_free_page_extend PAGE_SIZE w = some w) ∨
    (free_page_offset hp = 0 ∧ get_free_page_extend PAGE_SIZE w =
      some { (write_page PAGE_SIZE
          { w with g_header_page := some (make_free_pages_header PAGE_SIZE hp 10) }
          (make_free_pages_header PAGE_SIZE hp 10)).2 with
        g_header_page := some (make_free_pages_undo (make_free_pages_header PAGE_SIZE hp 10)
          (free_page_offset hp) 10) }) := by
  unfold get_free_page_extend
  rw [hw]
  by_cases he : free_page_offset hp = 0
  · right
    refine ⟨he, ?_⟩
    simp only [he, if_true]
    rw [make_free_pages_fails PAGE_SIZE h2 w hp 10 hw, he]
    rfl
  · left
    refine ⟨he, ?_⟩
    simp only [he, if_false]

/-- When `read_page` returns `NULL` for the head of the free list, `get_free_page` returns
`NULL` in the state left by that read. -/
theorem get_free_page_of_read_fails (PAGE_SIZE : Nat) (w w1 : World) (hp : Page)
    (hext : get_free_page_extend PAGE_SIZE w = some w1) (hh : w1.g_header_page = some hp)
    (hr : (read_page PAGE_SIZE w1 (free_page_offset hp)).1 = none) :
    get_free_page PAGE_SIZE w =
      some (none, (read_page PAGE_SIZE w1 (free_page_offset hp)).2) := by
  unfold get_free_page
  rw [hext]
  simp only [hh]
  rcases hrd : read_page PAGE_SIZE w1 (free_page_offset hp) with ⟨r, w2⟩
  rw [hrd] at hr
  simp only at hr
  subst hr
  rfl

/-- Run of `get_free_page` on a non-empty free list when no library call fails and the
file holds the page at the head: the page is read and `NULL` is returned. -/
theorem get_free_page_run_nonempty (PAGE_SIZE : Nat) (h2 : 2 ≤ PAGE_SIZE) (w : World)
    (f : FileState) (hp : Page) (hw : w.g_header_page = some hp)
    (hf : w.g_db_file = some f) (hs : w.script = []) (hne : free_page_offset hp ≠ 0)
    (ha : free_page_offset hp % 8 = 0) (hn : 0 ≤ free_page_offset hp)
    (hl : (free_page_offset hp).toNat + PAGE_SIZE ≤ f.contents.length) :
    get_free_page PAGE_SIZE w =
      some (none, { w with
        g_db_file := some { contents := f.contents,
                            pos := (free_page_offset hp).toNat + PAGE_SIZE },
        trace := w.trace ++ [LibCall.seek (free_page_offset hp) true,
          LibCall.read (free_page_offset hp).toNat PAGE_SIZE PAGE_SIZE] }) := by
  have hext : get_free_page_extend PAGE_SIZE w = some w := by
    unfold get_free_page_extend
    rw [hw]
    simp only [hne, if_false]
  rw [get_free_page_of_read_fails PAGE_SIZE w w hp hext hw (read_page_fails PAGE_SIZE h2 _ _),
    read_page_run PAGE_SIZE h2 w f _ hf hs ha hn hl]

/-- Run of `get_free_page` on an empty free list when no library call fails: the extension
writes the modified header over page 0 and is undone in memory, then page 0 is read and
`NULL` is returned. -/
theorem get_free_page_run_empty (PAGE_SIZE : Nat) (h24 : 24 ≤ PAGE_SIZE) (w : World)
    (f : FileState) (hp : Page) (hw : w.g_header_page = some hp)
    (hf : w.g_db_file = some f) (hs : w.script = []) (hoff : hp.offset = 0)
    (hlen : hp.ptr_page.length = PAGE_SIZE) (he : free_page_offset hp = 0) :
    get_free_page PAGE_SIZE w =
      some (none, { w with
        g_db_file := some
          { contents := writeAt f.contents 0 (make_free_pages_header PAGE_SIZE hp 10).ptr_page,
            pos := PAGE_SIZE },
        g_header_page := some (make_free_pages_undo (make_free_pages_header PAGE_SIZE hp 10)
          (free_page_offset hp) 10),
        trace := w.trace ++ [LibCall.seek 0 true, LibCall.write 0 PAGE_SIZE PAGE_SIZE,
          LibCall.seek 0 true, LibCall.read 0 PAGE_SIZE PAGE_SIZE] }) := by
  obtain ⟨-, -, -, hl, -⟩ := make_free_pages_header_fields PAGE_SIZE hp 10 (by omega)
  obtain ⟨hu, -, -, -, -⟩ := make_free_pages_undo_fields PAGE_SIZE hp 10 (by omega)
  have hd : (make_free_pages_header PAGE_SIZE hp 10).ptr_page ≠ [] := by
    intro h0
    rw [h0] at hl
    simp only [List.length_nil] at hl
    omega
  have hext := make_free_pages_run PAGE_SIZE h24 w f hp 10 hw hf hs hoff hlen
  obtain ⟨w1, hw1⟩ : ∃ w1 : World, w1 = { w with
      g_db_file := some
        { contents := writeAt f.contents 0 (make_free_pages_header PAGE_SIZE hp 10).ptr_page,
          pos := PAGE_SIZE },
      g_header_page := some (make_free_pages_undo (make_free_pages_header PAGE_SIZE hp 10)
        (free_page_offset hp) 10),
      trace := w.trace ++ [LibCall.seek 0 true, LibCall.write 0 PAGE_SIZE PAGE_SIZE] } :=
    ⟨_, rfl⟩
  have hext1 : get_free_page_extend PAGE_SIZE w = some w1 := by
    unfold get_free_page_extend
    rw [hw]
    simp only [he, if_true]
    rw [hext, hw1]
    rfl
  have hh1 : w1.g_header_page = some (make_free_pages_undo
      (make_free_pages_header PAGE_SIZE hp 10) (free_page_offset hp) 10) := by rw [hw1]
  have hf1 : w1.g_db_file = some
      { contents := writeAt f.contents 0 (make_free_pages_header PAGE_SIZE hp 10).ptr_page,
        pos := PAGE_SIZE } := by rw [hw1]
  have hs1 : w1.script = [] := by rw [hw1]; exact hs
  have h0 : free_page_offset (make_free_pages_undo (make_free_pages_header PAGE_SIZE hp 10)
      (free_page_offset hp) 10) = 0 := by rw [hu, he]
  rw [get_free_page_of_read_fails PAGE_SIZE w w1 _ hext1 hh1
    (read_page_fails PAGE_SIZE (by omega) _ _), h0,
    read_page_run PAGE_SIZE (by omega) w1 _ 0 hf1 hs1 (by decide) (by decide)
      (by simp only [Int.toNat_zero, Nat.zero_add]; rw [length_writeAt _ _ _ hd, hl, hlen]; omega)]
  subst hw1
  simp only [Int.toNat_zero, Nat.zero_add, List.append_assoc, List.cons_append,
    List.nil_append]

/-- The walk of the free list does not depend on the bytes of page 0. -/
theorem chain_ok_congr (PAGE_SIZE : Nat) (c c1 : List Nat) (bound : Int)
    (h : ∀ off, PAGE_SIZE ≤ off → c1.drop off = c.drop off) :
    ∀ (fuel : Nat) (off : Int),
      chain_ok PAGE_SIZE c1 bound fuel off = chain_ok PAGE_SIZE c bound fuel off := by
  intro fuel
  induction fuel with
  | zero => intro off; rfl
  | succ k ih =>
    intro off
    unfold chain_ok
    by_cases h0 : off = 0
    · simp only [h0, decide_True, Bool.true_or]
    · by_cases hm : off % (PAGE_SIZE : Int) = 0
      · by_cases hn : 0 ≤ off
        · have hge : PAGE_SIZE ≤ off.toNat := by
            have hd : (PAGE_SIZE : Int) ∣ off := Int.dvd_of_emod_eq_zero hm
            have hpos : 0 < off := lt_of_le_of_ne hn (Ne.symm h0)
            have := Int.le_of_dvd hpos hd
            omega
          have hg : getI64 c1 off.toNat = getI64 c off.toNat := by
            unfold getI64
            rw [h _ hge]
          rw [hg, ih]
        · simp only [hn, decide_False, Bool.and_false, Bool.false_and]
      · simp only [hm, decide_False, Bool.false_and]

/-- Invariant after a `write_page` of a page for offset 0, with unchanged header fields. -/
theorem free_list_ok_after_write (PAGE_SIZE : Nat) (w : World)
    (f : FileState) (hp hp1 page : Page) (hf : w.g_db_file = some f)
    (hoff : page.offset = 0) (h1 : free_page_offset hp1 = free_page_offset hp)
    (h3 : number_of_pages hp1 = number_of_pages hp)
    (hinv : free_list_ok PAGE_SIZE f.contents hp) :
    ∃ f1, (write_page PAGE_SIZE w page).2.g_db_file = some f1 ∧
      free_list_ok PAGE_SIZE f1.contents hp1 := by
  obtain ⟨f1, hf1, hc⟩ := write_page_file PAGE_SIZE w f page hf
  refine ⟨f1, hf1, ?_⟩
  obtain ⟨fuel, hfuel⟩ := hinv
  refine ⟨fuel, ?_⟩
  rw [h1, h3]
  rcases hc with hc | ⟨data, hd, hc⟩
  · rw [hc]; exact hfuel
  · rw [chain_ok_congr PAGE_SIZE f.contents f1.contents _ ?_]
    · exact hfuel
    · intro off hoff1
      rw [hc, hoff]
      exact writeAt_drop_beyond _ _ _ _ (by simp only [Int.toNat_zero]; omega)

/-! ## Facts on the concrete inputs -/

theorem headerD_fields :
    free_page_offset headerD = 0 ∧ root_page_offset headerD = 0 ∧
      number_of_pages headerD = 1 ∧ headerD.ptr_page.length = 4096 ∧ headerD.offset = 0 :=
  get_new_page_header_fields 4096 (by decide)

theorem headerE_fields :
    free_page_offset headerE = 4096 ∧ number_of_pages headerE = 2 ∧
      headerE.ptr_page.length = 4096 ∧ headerE.offset = 0 := by
  obtain ⟨-, -, -, hl, ho⟩ := get_new_page_header_fields 4096 (by decide)
  have hl2 : (set_number_of_pages (get_new_page_header 4096) 2).ptr_page.length = 4096 := by
    rw [length_set_number_of_pages _ _ (by omega), hl]
  unfold headerE
  refine ⟨?_, ?_, ?_, ?_⟩
  · rw [free_page_offset_set_free_page_offset]; rfl
  · rw [number_of_pages_set_free_page_offset,
      number_of_pages_set_number_of_pages _ _ (by omega)]
    rfl
  · rw [length_set_free_page_offset _ _ (by omega), hl2]
  · rw [offset_set_free_page_offset, offset_set_number_of_pages, ho]

theorem worldE_free_list_ok :
    free_list_ok 4096 (headerE.ptr_page ++ List.replicate 4096 0) headerE := by
  obtain ⟨h1, h2, h3, -⟩ := headerE_fields
  have hg : getI64 (headerE.ptr_page ++ List.replicate 4096 0) 4096 = 0 := by
    unfold getI64
    rw [List.drop_left' h3]
    rfl
  refine ⟨1, ?_⟩
  rw [h1, h2]
  unfold chain_ok
  have ht : (4096 : Int).toNat = 4096 := rfl
  rw [ht, hg]
  rfl

/-! ## C1: round trip of `write_page` and `read_page` -/

/-- C1, evaluation at the failing input: on a newly created open file, without any failing
library call, `write_page` writes all 4096 bytes of the page at offset 0 and returns -1 (it
does not reach `fflush`); the following `read_page(0)` reads the 4096 bytes back and
returns `NULL`.  The claim requires the results 0 and the page. -/
theorem write_page_read_page_round_trip_fails :
    write_page 4096 worldA pageA =
      (-1, { worldA with
        g_db_file := some { contents := pageA.ptr_page, pos := 4096 },
        trace := [LibCall.seek 0 true, LibCall.write 0 4096 4096] }) ∧
    read_page 4096
        { worldA with
          g_db_file := some { contents := pageA.ptr_page, pos := 4096 },
          trace := [LibCall.seek 0 true, LibCall.write 0 4096 4096] } 0 =
      (none, { worldA with
        g_db_file := some { contents := pageA.ptr_page, pos := 4096 },
        trace := [LibCall.seek 0 true, LibCall.write 0 4096 4096,
                  LibCall.seek 0 true, LibCall.read 0 4096 4096] }) := by
  constructor
  · rw [write_page_run 4096 (by decide) worldA ⟨[], 0⟩ pageA rfl rfl (by decide) (by decide)
      (by simp only [pageA, List.length_replicate])]
    simp only [writeAt_nil_zero, pageA, worldA, Int.toNat_zero, Nat.zero_add, List.nil_append]
  · rw [read_page_run 4096 (by decide) _ ⟨pageA.ptr_page, 4096⟩ 0 rfl rfl (by decide)
      (by decide) (by simp only [pageA, List.length_replicate]; decide)]
    simp only [worldA, Int.toNat_zero, Nat.zero_add, List.cons_append, List.nil_append]

/-! ## C2: alignment rejection -/

/-- C2, counterexample: with a page size of 4096, offset 8 is not a multiple of the page
size, and yet `write_page` seeks to 8, writes 4096 bytes there and changes the file, and
`read_page(8)` seeks and reads. -/
theorem alignment_rejection_counterexample :
    pageB.offset % 4096 ≠ 0 ∧
    write_page 4096 worldB pageB =
      (-1, { worldB with
        g_db_file := some { contents := writeAt (List.replicate 8192 0) 8 pageB.ptr_page,
                            pos := 4104 },
        trace := [LibCall.seek 8 true, LibCall.write 8 4096 4096] }) ∧
    writeAt (List.replicate 8192 0) 8 pageB.ptr_page ≠ List.replicate 8192 0 ∧
    read_page 4096 worldB 8 =
      (none, { worldB with
        g_db_file := some { contents := List.replicate 8192 0, pos := 4104 },
        trace := [LibCall.seek 8 true, LibCall.read 8 4096 4096] }) := by
  refine ⟨by decide, ?_, ?_, ?_⟩
  · rw [write_page_run 4096 (by decide) worldB ⟨List.replicate 8192 0, 0⟩ pageB rfl rfl
      (by decide) (by decide) (by simp only [pageB, List.length_replicate])]
    rfl
  · intro h
    have hd : pageB.ptr_page ≠ [] := by
      intro h0
      have := congrArg List.length h0
      simp only [pageB, List.length_replicate, List.length_nil] at this
      exact absurd this (by decide)
    have h1 := writeAt_getElem_pos (List.replicate 8192 0) 8 pageB.ptr_page hd
    rw [h] at h1
    simp only [pageB, List.getElem?_replicate] at h1
    revert h1
    decide
  · rw [read_page_run 4096 (by decide) worldB ⟨List.replicate 8192 0, 0⟩ 8 rfl rfl
      (by decide) (by decide) (by simp only [List.length_replicate]; decide)]
    rfl

/-- C2, amended: for every offset that is not a multiple of 8, `read_page` returns `NULL`
and `write_page` returns -1, and neither makes a library call or changes anything: the state
after the call, trace and file included, is the state before. -/
theorem alignment_rejection_mod8 (PAGE_SIZE : Nat) (w : World) (page : Page)
    (h : page.offset % 8 ≠ 0) :
    read_page PAGE_SIZE w page.offset = (none, w) ∧ write_page PAGE_SIZE w page = (-1, w) := by
  unfold read_page write_page
  cases w.g_db_file with
  | none => exact ⟨rfl, rfl⟩
  | some f => simp only [h, ne_eq, not_false_eq_true, if_true, and_self]

/-- Instance of the amended C2 at offset 4100 (page size 4096, open file of two pages). -/
theorem alignment_rejection_mod8_witness :
    pageC.offset % 8 ≠ 0 ∧
      (read_page 4096 worldB pageC.offset = (none, worldB) ∧
        write_page 4096 worldB pageC = (-1, worldB)) :=
  ⟨by decide, alignment_rejection_mod8 4096 worldB pageC (by decide)⟩

/-! ## C3: the chain built by `make_free_pages` -/

/-- C3, evaluation at the failing input: with a page size of 4096, a file holding the header
page only, the header fields (head 0, root 0, count 1) and no failing library call,
`make_free_pages(2)` returns -1; the only library calls are the seek to 0 and the write of the
header page, and the free-list head in memory is 0 afterwards, not the offset 4096 of a first
new page: no chain is built. -/
theorem make_free_pages_builds_no_chain :
    ∃ w1, make_free_pages 4096 worldD 2 = some (-1, w1) ∧
      w1.g_header_page.map free_page_offset = some 0 ∧
      w1.g_header_page.map number_of_pages = some 1 ∧
      w1.trace = [LibCall.seek 0 true, LibCall.write 0 4096 4096] := by
  obtain ⟨h1, -, h3, h4, h5⟩ := headerD_fields
  obtain ⟨u1, u2, -, -, -⟩ := make_free_pages_undo_fields 4096 headerD 2 (by omega)
  refine ⟨_, make_free_pages_run 4096 (by decide) worldD ⟨headerD.ptr_page, 0⟩ headerD 2
    rfl rfl rfl h5 h4, ?_, ?_, rfl⟩
  · simp only [Option.map_some']; rw [u1, h1]
  · simp only [Option.map_some']; rw [u2, h3]

/-- The loop of `make_free_pages(2)` run from the state `worldL` (one page in the file before
the call, count already raised to 3, previous head 0), no library call failing: the two
pages are written at the offsets 12288 and 16384, not at 4096 and 8192; the first stores the
previous head 0 as its next link and the last stores 20480, the end of the file. -/
theorem make_free_pages_loop_run :
    ∃ w2 f2, make_free_pages_loop 4096 0 2 2 1 worldL = some w2 ∧
      w2.trace = [LibCall.seek 0 true, LibCall.write 0 4096 4096,
        LibCall.seek 12288 true, LibCall.write 12288 4096 4096,
        LibCall.seek 16384 true, LibCall.write 16384 4096 4096] ∧
      w2.g_db_file = some f2 ∧ f2.contents.length = 20480 ∧
      getI64 f2.contents 12288 = 0 ∧ getI64 f2.contents 16384 = 20480 := by
  obtain ⟨-, -, h3, h4, h5⟩ := headerD_fields
  obtain ⟨-, hn, -, hl, ho⟩ := make_free_pages_header_fields 4096 headerD 2 (by omega)
  have hn3 : number_of_pages (make_free_pages_header 4096 headerD 2) = 3 := by
    rw [hn, h3]; rfl
  have hd : (make_free_pages_header 4096 headerD 2).ptr_page ≠ [] := by
    intro h0; rw [h0] at hl; simp only [List.length_nil] at hl; omega
  have hjunk : worldL.junk = List.replicate 4088 170 := rfl
  have hw0 : worldL.g_header_page = some (make_free_pages_header 4096 headerD 2) := rfl
  have hb : ∀ v : Int, (le_bytes v ++ List.take (4096 - 8) (List.replicate 4088 170)).length
      = 4096 := by
    intro v
    simp only [List.length_append, length_le_bytes, List.length_take, List.length_replicate]
    rfl
  have ho1 : wrap64 ((3 + 1 - 1) * ((4096 : Nat) : Int)) = 12288 := by rfl
  have ho2 : wrap64 ((3 + (1 + 1) - 1) * ((4096 : Nat) : Int)) = 16384 := by rfl
  have hlk2 : ((3 : Int) + (1 + 1)) * ((4096 : Nat) : Int) = 20480 := by rfl
  have hc0 : (writeAt headerD.ptr_page 0 (make_free_pages_header 4096 headerD 2).ptr_page).length
      = 4096 := by
    rw [length_writeAt _ _ _ hd, hl, h4]; rfl
  rw [make_free_pages_loop_step 4096 0 2 1 1 worldL _ hw0 (by decide), hn3, hjunk,
    if_neg (by decide), ho1,
    write_page_run 4096 (by decide) worldL _ _ rfl rfl (by decide) (by decide) (hb 0)]
  dsimp only
  rw [make_free_pages_loop_step 4096 0 2 0 (1 + 1) _
    (make_free_pages_header 4096 headerD 2) rfl (by decide), hn3]
  dsimp only
  rw [hjunk, if_pos (by decide), ho2, hlk2,
    write_page_run 4096 (by decide) _ _ _ rfl rfl (by decide) (by decide) (hb 20480)]
  dsimp only
  have h12 : ((12288 : Int)).toNat = 12288 := rfl
  have h16 : ((16384 : Int)).toNat = 16384 := rfl
  have hne : ∀ v : Int, le_bytes v ++ List.take (4096 - 8) (List.replicate 4088 170) ≠ [] := by
    intro v h0
    have := hb v
    rw [h0] at this
    simp at this
  have hlen1 : (writeAt
      (writeAt headerD.ptr_page 0 (make_free_pages_header 4096 headerD 2).ptr_page) 12288
      (le_bytes 0 ++ List.take (4096 - 8) (List.replicate 4088 170))).length = 16384 := by
    rw [length_writeAt _ _ _ (hne 0), hb, hc0]; rfl
  refine ⟨_, _, rfl, ?_, rfl, ?_, ?_, ?_⟩
  · rfl
  · simp only [h12, h16]
    rw [length_writeAt _ _ _ (hne 20480), hb, hlen1]; rfl
  · simp only [h12, h16]
    rw [getI64_writeAt_below _ _ _ _ (by decide) (by rw [hlen1]),
      getI64_writeAt_same _ _ _ (by rw [hb]; decide)]
    unfold getI64
    rw [List.drop_zero, List.take_append_of_le_length (by rw [length_le_bytes]),
      List.take_of_length_le (by rw [length_le_bytes])]
    exact le_value_le_bytes 0
  · simp only [h12, h16]
    rw [getI64_writeAt_same _ _ _ (by rw [hb]; decide)]
    unfold getI64
    rw [List.drop_zero, List.take_append_of_le_length (by rw [length_le_bytes]),
      List.take_of_length_le (by rw [length_le_bytes])]
    exact le_value_le_bytes 20480

/-! ## C4: `get_free_page` on an empty free list -/

/-- C4, evaluation at the failing input: with a page size of 4096, an empty free list (head 0,
count 1) and no failing library call, `get_free_page` returns `NULL`; it writes the header
page, reads page 0 back, and leaves the page count in memory at 1 and the head at 0.  The
claim requires one of ten new pages, a count grown by 10 and a head on the remaining nine. -/
theorem get_free_page_empty_list_returns_null :
    ∃ w1, get_free_page 4096 worldD = some (none, w1) ∧
      w1.g_header_page.map free_page_offset = some 0 ∧
      w1.g_header_page.map number_of_pages = some 1 ∧
      w1.trace = [LibCall.seek 0 true, LibCall.write 0 4096 4096,
        LibCall.seek 0 true, LibCall.read 0 4096 4096] := by
  obtain ⟨h1, -, h3, h4, h5⟩ := headerD_fields
  obtain ⟨u1, u2, -, -, -⟩ := make_free_pages_undo_fields 4096 headerD 10 (by omega)
  refine ⟨_, get_free_page_run_empty 4096 (by decide) worldD ⟨headerD.ptr_page, 0⟩ headerD
    rfl rfl rfl h5 h4 h1, ?_, ?_, rfl⟩
  · simp only [Option.map_some']; rw [u1, h1]
  · simp only [Option.map_some']; rw [u2, h3]

/-! ## C5: pop from a non-empty free list -/

/-- C5, evaluation at the failing input: with a page size of 4096, the free-list head at 4096,
a file that holds the free page at 4096 and no failing library call, `get_free_page` seeks to
4096, reads the 4096 bytes of the page and returns `NULL`; the header in memory keeps the head
4096 and no header write is made.  The claim requires the page read from 4096. -/
theorem get_free_page_nonempty_list_returns_null :
    get_free_page 4096 worldE =
      some (none, { worldE with
        g_db_file := some { contents := headerE.ptr_page ++ List.replicate 4096 0, pos := 8192 },
        trace := [LibCall.seek 4096 true, LibCall.read 4096 4096 4096] }) ∧
    free_page_offset headerE = 4096 := by
  obtain ⟨h1, -, h3, -⟩ := headerE_fields
  refine ⟨?_, h1⟩
  rw [get_free_page_run_nonempty 4096 (by decide) worldE
    ⟨headerE.ptr_page ++ List.replicate 4096 0, 0⟩ headerE rfl rfl rfl
    (by rw [h1]; decide) (by rw [h1]; decide) (by rw [h1]; decide)
    (by rw [h1]; simp only [List.length_append, h3, List.length_replicate]; decide), h1]
  rfl

/-! ## C6: placement of the new pages -/

/-- C6, evaluation at the failing input: with a page size of 4096, one page in the file
(N = 1) and no failing library call, `make_free_pages(2)` makes one write, of 4096 bytes at
offset 0; the file still ends at byte 4096 afterwards, so that no page is written at the
offsets 4096 and 8192 that the claim names. -/
theorem make_free_pages_writes_no_new_page :
    ∃ w1 f1, make_free_pages 4096 worldD 2 = some (-1, w1) ∧
      w1.g_db_file = some f1 ∧ f1.contents.length = 4096 ∧ f1.pos = 4096 ∧
      w1.trace = [LibCall.seek 0 true, LibCall.write 0 4096 4096] := by
  obtain ⟨-, -, -, h4, h5⟩ := headerD_fields
  obtain ⟨-, -, -, hl, -⟩ := make_free_pages_header_fields 4096 headerD 2 (by omega)
  have hd : (make_free_pages_header 4096 headerD 2).ptr_page ≠ [] := by
    intro h0
    rw [h0] at hl
    simp only [List.length_nil] at hl
    omega
  refine ⟨_, _, make_free_pages_run 4096 (by decide) worldD ⟨headerD.ptr_page, 0⟩ headerD 2
    rfl rfl rfl h5 h4, rfl, ?_, rfl, rfl⟩
  simp only
  rw [length_writeAt _ _ _ hd, hl, h4]
  decide

/-! ## C7: the free-list bound invariant -/

/-- C7: the free-list bound invariant (the chain of next links from the header's
`free_page_offset` ends in 0 after finitely many steps and stays on multiples of `PAGE_SIZE`
below `number_of_pages * PAGE_SIZE`) holds for a newly built header, whatever the file, and,
for a page size of at least 2 and a header page at offset 0, it is preserved by every call
of `make_free_pages` and by every call of `get_free_page`: each call returns (with the
failure result) and leaves a state in which the invariant holds again. -/
theorem free_list_invariant (PAGE_SIZE : Nat) (h2 : 2 ≤ PAGE_SIZE) (w : World)
    (f : FileState) (hp : Page) (n : Int) (hf : w.g_db_file = some f)
    (hw : w.g_header_page = some hp) (hoff : hp.offset = 0)
    (hlen : 24 ≤ hp.ptr_page.length) (hinv : free_list_ok PAGE_SIZE f.contents hp) :
    (∀ (c : List Nat) (sz : Nat), 24 ≤ sz →
        free_list_ok PAGE_SIZE c (get_new_page_header sz)) ∧
    (∃ w1 f1 hp1, make_free_pages PAGE_SIZE w n = some (-1, w1) ∧ w1.g_db_file = some f1 ∧
        w1.g_header_page = some hp1 ∧ free_list_ok PAGE_SIZE f1.contents hp1) ∧
    (∃ w1 f1 hp1, get_free_page PAGE_SIZE w = some (none, w1) ∧ w1.g_db_file = some f1 ∧
        w1.g_header_page = some hp1 ∧ free_list_ok PAGE_SIZE f1.contents hp1) := by
  have hext : ∀ m : Int, ∃ f1, (write_page PAGE_SIZE
        { w with g_header_page := some (make_free_pages_header PAGE_SIZE hp m) }
        (make_free_pages_header PAGE_SIZE hp m)).2.g_db_file = some f1 ∧
      free_list_ok PAGE_SIZE f1.contents
        (make_free_pages_undo (make_free_pages_header PAGE_SIZE hp m)
          (free_page_offset hp) m) := by
    intro m
    obtain ⟨-, -, -, -, ho⟩ := make_free_pages_header_fields PAGE_SIZE hp m hlen
    obtain ⟨u1, u2, -, -, -⟩ := make_free_pages_undo_fields PAGE_SIZE hp m hlen
    exact free_list_ok_after_write PAGE_SIZE _ f hp _ _ hf (by rw [ho, hoff]) u1 u2 hinv
  refine ⟨?_, ?_, ?_⟩
  · intro c sz hsz
    refine ⟨0, ?_⟩
    rw [(get_new_page_header_fields sz hsz).1]
    rfl
  · obtain ⟨f1, hf1, hok⟩ := hext n
    exact ⟨_, f1, _, make_free_pages_fails PAGE_SIZE h2 w hp n hw, hf1, rfl, hok⟩
  · rcases get_free_page_extend_cases PAGE_SIZE h2 w hp hw with ⟨-, he⟩ | ⟨-, he⟩
    · obtain ⟨f1, hf1, hc⟩ := read_page_file PAGE_SIZE w f (free_page_offset hp) hf
      refine ⟨_, f1, hp, get_free_page_of_read_fails PAGE_SIZE w w hp he hw
        (read_page_fails PAGE_SIZE h2 _ _), hf1, ?_, ?_⟩
      · rw [(read_page_sameMemory PAGE_SIZE w (free_page_offset hp)).1, hw]
      · rw [hc]; exact hinv
    · obtain ⟨f1, hf1, hok⟩ := hext 10
      obtain ⟨f2, hf2, hc⟩ := read_page_file PAGE_SIZE _ f1
        (free_page_offset (make_free_pages_undo (make_free_pages_header PAGE_SIZE hp 10)
          (free_page_offset hp) 10))
        (show ({ (write_page PAGE_SIZE
            { w with g_header_page := some (make_free_pages_header PAGE_SIZE hp 10) }
            (make_free_pages_header PAGE_SIZE hp 10)).2 with
          g_header_page := some (make_free_pages_undo (make_free_pages_header PAGE_SIZE hp 10)
            (free_page_offset hp) 10) } : World).g_db_file = some f1 from hf1)
      refine ⟨_, f2, make_free_pages_undo (make_free_pages_header PAGE_SIZE hp 10)
        (free_page_offset hp) 10, get_free_page_of_read_fails PAGE_SIZE w _ _ he rfl
        (read_page_fails PAGE_SIZE h2 _ _), hf2, ?_, ?_⟩
      · rw [(read_page_sameMemory PAGE_SIZE _ _).1]
      · rw [hc]; exact hok

/-- Instance of C7 for a page size of 4096 on `worldE`, whose free list is the one page at
4096. -/
theorem free_list_invariant_witness :
    2 ≤ 4096 ∧ worldE.g_db_file = some ⟨headerE.ptr_page ++ List.replicate 4096 0, 0⟩ ∧
    worldE.g_header_page = some headerE ∧ headerE.offset = 0 ∧
    24 ≤ headerE.ptr_page.length ∧
    free_list_ok 4096 (headerE.ptr_page ++ List.replicate 4096 0) headerE ∧
    ((∀ (c : List Nat) (sz : Nat), 24 ≤ sz → free_list_ok 4096 c (get_new_page_header sz)) ∧
    (∃ w1 f1 hp1, make_free_pages 4096 worldE 10 = some (-1, w1) ∧ w1.g_db_file = some f1 ∧
        w1.g_header_page = some hp1 ∧ free_list_ok 4096 f1.contents hp1) ∧
    (∃ w1 f1 hp1, get_free_page 4096 worldE = some (none, w1) ∧ w1.g_db_file = some f1 ∧
        w1.g_header_page = some hp1 ∧ free_list_ok 4096 f1.contents hp1)) :=
  have hl : 24 ≤ headerE.ptr_page.length := by rw [headerE_fields.2.2.1]; decide
  ⟨by decide, rfl, rfl, headerE_fields.2.2.2, hl, worldE_free_list_ok,
    free_list_invariant 4096 (by decide) worldE ⟨headerE.ptr_page ++ List.replicate 4096 0, 0⟩
      headerE 10 rfl rfl headerE_fields.2.2.2 hl worldE_free_list_ok⟩

/-! ## C8: rollback of `make_free_pages` -/

/-- C8: for every `num_free_pages` and every header, when the write of the header inside
`make_free_pages` fails, `make_free_pages` returns -1, the header in memory has the
`free_page_offset`, `number_of_pages` and `root_page_offset` it had before the call, and the
file and the trace of library calls are those left by the header write: no free page is
written. -/
theorem make_free_pages_rollback (PAGE_SIZE : Nat) (w : World) (hp : Page) (n : Int)
    (hw : w.g_header_page = some hp) (hlen : 24 ≤ hp.ptr_page.length)
    (hfail : (write_page PAGE_SIZE
      { w with g_header_page := some (make_free_pages_header PAGE_SIZE hp n) }
      (make_free_pages_header PAGE_SIZE hp n)).1 ≠ 0) :
    ∃ w1, make_free_pages PAGE_SIZE w n = some (-1, w1) ∧
      w1.g_header_page.map free_page_offset = some (free_page_offset hp) ∧
      w1.g_header_page.map number_of_pages = some (number_of_pages hp) ∧
      w1.g_header_page.map root_page_offset = some (root_page_offset hp) ∧
      w1.g_db_file = (write_page PAGE_SIZE
        { w with g_header_page := some (make_free_pages_header PAGE_SIZE hp n) }
        (make_free_pages_header PAGE_SIZE hp n)).2.g_db_file ∧
      w1.trace = (write_page PAGE_SIZE
        { w with g_header_page := some (make_free_pages_header PAGE_SIZE hp n) }
        (make_free_pages_header PAGE_SIZE hp n)).2.trace := by
  obtain ⟨u1, u2, u3, -, -⟩ := make_free_pages_undo_fields PAGE_SIZE hp n hlen
  refine ⟨_, make_free_pages_of_write_fails PAGE_SIZE w hp n hw hfail, ?_, ?_, ?_, rfl, rfl⟩
  · simp only [Option.map_some']; rw [u1]
  · simp only [Option.map_some']; rw [u2]
  · simp only [Option.map_some']; rw [u3]

/-- Instance of C8 for a page size of 4096 on `worldF`, where the `fwrite` of the header page
stops after 100 bytes. -/
theorem make_free_pages_rollback_witness :
    worldF.g_header_page = some headerD ∧ 24 ≤ headerD.ptr_page.length ∧
    (write_page 4096
      { worldF with g_header_page := some (make_free_pages_header 4096 headerD 2) }
      (make_free_pages_header 4096 headerD 2)).1 ≠ 0 ∧
    ∃ w1, make_free_pages 4096 worldF 2 = some (-1, w1) ∧
      w1.g_header_page.map free_page_offset = some (free_page_offset headerD) ∧
      w1.g_header_page.map number_of_pages = some (number_of_pages headerD) ∧
      w1.g_header_page.map root_page_offset = some (root_page_offset headerD) ∧
      w1.g_db_file = (write_page 4096
        { worldF with g_header_page := some (make_free_pages_header 4096 headerD 2) }
        (make_free_pages_header 4096 headerD 2)).2.g_db_file ∧
      w1.trace = (write_page 4096
        { worldF with g_header_page := some (make_free_pages_header 4096 headerD 2) }
        (make_free_pages_header 4096 headerD 2)).2.trace :=
  have hl : 24 ≤ headerD.ptr_page.length := by rw [headerD_fields.2.2.2.1]; decide
  have hf : (write_page 4096
      { worldF with g_header_page := some (make_free_pages_header 4096 headerD 2) }
      (make_free_pages_header 4096 headerD 2)).1 ≠ 0 := by
    rw [write_page_fails 4096 (by decide)]; decide
  ⟨rfl, hl, hf, make_free_pages_rollback 4096 worldF headerD 2 rfl hl hf⟩

/-! ## C9: rollback of `get_free_page` -/

/-- C9: let `w1` be the state in which `get_free_page` reads the head of the free list and `hp`
the header cached there.  If the page at the head is read in full (`fseeko` succeeds and
`fread` delivers its item) and the write of the header with the advanced head then fails,
`get_free_page` returns `NULL` and the header in memory has `free_page_offset` equal to the
value before the pop, the offset of the page just read, and an unchanged
`number_of_pages`. -/
theorem get_free_page_rollback (PAGE_SIZE : Nat) (w w1 : World) (hp : Page)
    (hext : get_free_page_extend PAGE_SIZE w = some w1) (hh : w1.g_header_page = some hp)
    (hread : read_in_full PAGE_SIZE w1 (free_page_offset hp))
    (hfail : (write_page PAGE_SIZE
      { (read_page_transfer PAGE_SIZE w1 (free_page_offset hp)).2.2 with
        g_header_page := some (get_free_page_header PAGE_SIZE w1 hp) }
      (get_free_page_header PAGE_SIZE w1 hp)).1 ≠ 0) :
    ∃ w3, get_free_page PAGE_SIZE w = some (none, w3) ∧
      w3.g_header_page.map free_page_offset = some (free_page_offset hp) ∧
      w3.g_header_page.map number_of_pages = some (number_of_pages hp) := by
  have hrp := read_page_of_read_in_full PAGE_SIZE w1 _ hread
  by_cases h1 : 1 = PAGE_SIZE
  · -- the page is returned by `read_page`; the header write fails and the pop is undone
    rw [if_neg (by simpa using h1)] at hrp
    refine ⟨{ (write_page PAGE_SIZE
        { (read_page_transfer PAGE_SIZE w1 (free_page_offset hp)).2.2 with
          g_header_page := some (get_free_page_header PAGE_SIZE w1 hp) }
        (get_free_page_header PAGE_SIZE w1 hp)).2 with
        g_header_page := some (set_free_page_offset (get_free_page_header PAGE_SIZE w1 hp)
          (free_page_offset hp)) }, ?_, ?_, ?_⟩
    · unfold get_free_page
      rw [hext]
      simp only [hh, hrp]
      unfold get_free_page_header next_free_page_offset at *
      simp only
      rw [if_pos hfail]
    · simp only [Option.map_some']
      rw [free_page_offset_set_free_page_offset, wrap64_free_page_offset]
    · simp only [Option.map_some']
      unfold get_free_page_header
      rw [number_of_pages_set_free_page_offset, number_of_pages_set_free_page_offset]
  · -- `read_page` returns `NULL`: the cached header is untouched
    rw [if_pos h1] at hrp
    have hr : (read_page PAGE_SIZE w1 (free_page_offset hp)).1 = none := by rw [hrp]
    have hm := (read_page_sameMemory PAGE_SIZE w1 (free_page_offset hp)).1
    refine ⟨_, get_free_page_of_read_fails PAGE_SIZE w w1 hp hext hh hr, ?_, ?_⟩
    · rw [hm, hh]; rfl
    · rw [hm, hh]; rfl

/-- Instance of C9 for a page size of 4096 on `worldG`: the page at the head 4096 is read in
full, and the header write is set to fail. -/
theorem get_free_page_rollback_witness :
    get_free_page_extend 4096 worldG = some worldG ∧ worldG.g_header_page = some headerE ∧
    read_in_full 4096 worldG (free_page_offset headerE) ∧
    (write_page 4096
      { (read_page_transfer 4096 worldG (free_page_offset headerE)).2.2 with
        g_header_page := some (get_free_page_header 4096 worldG headerE) }
      (get_free_page_header 4096 worldG headerE)).1 ≠ 0 ∧
    ∃ w3, get_free_page 4096 worldG = some (none, w3) ∧
      w3.g_header_page.map free_page_offset = some (free_page_offset headerE) ∧
      w3.g_header_page.map number_of_pages = some (number_of_pages headerE) :=
  have hext : get_free_page_extend 4096 worldG = some worldG := by
    have hw : worldG.g_header_page = some headerE := rfl
    unfold get_free_page_extend
    rw [hw]
    simp only [headerE_fields.1]
    rfl
  have hread : read_in_full 4096 worldG (free_page_offset headerE) := by
    rw [headerE_fields.1]
    exact read_in_full_of_contents 4096 (by decide) worldG
      ⟨headerE.ptr_page ++ List.replicate 4096 0, 0⟩ 4096 [none, some 100] rfl rfl
      (by decide) (by decide)
      (by simp only [List.length_append, headerE_fields.2.2.1, List.length_replicate]; decide)
  have hfail : (write_page 4096
      { (read_page_transfer 4096 worldG (free_page_offset headerE)).2.2 with
        g_header_page := some (get_free_page_header 4096 worldG headerE) }
      (get_free_page_header 4096 worldG headerE)).1 ≠ 0 := by
    rw [write_page_fails 4096 (by decide)]; decide
  ⟨hext, rfl, hread, hfail,
    get_free_page_rollback 4096 worldG worldG headerE hext rfl hread hfail⟩

/-! ## C10: a failed extension does not yield a page -/

/-- C10: for a page size of at least 2, whatever the outcomes of the library calls,
`get_free_page` returns no page: its result is `NULL`, also when the free list is empty and
the `make_free_pages(10)` it triggers fails; in particular it never returns a page whose
offset is 0. -/
theorem get_free_page_returns_no_page (PAGE_SIZE : Nat) (h2 : 2 ≤ PAGE_SIZE) (w : World)
    (hp : Page) (hw : w.g_header_page = some hp) :
    (∃ w1, get_free_page PAGE_SIZE w = some (none, w1)) ∧
      ∀ page w1, get_free_page PAGE_SIZE w = some (some page, w1) → page.offset ≠ 0 := by
  have hex : ∃ w1, get_free_page PAGE_SIZE w = some (none, w1) := by
    rcases get_free_page_extend_cases PAGE_SIZE h2 w hp hw with ⟨-, hext⟩ | ⟨-, hext⟩
    · exact ⟨_, get_free_page_of_read_fails PAGE_SIZE w w hp hext hw
        (read_page_fails PAGE_SIZE h2 _ _)⟩
    · exact ⟨_, get_free_page_of_read_fails PAGE_SIZE w _ _ hext rfl
        (read_page_fails PAGE_SIZE h2 _ _)⟩
  refine ⟨hex, ?_⟩
  intro page w1 h
  obtain ⟨w2, h2'⟩ := hex
  rw [h2'] at h
  simp only [Option.some.injEq, Prod.mk.injEq] at h
  exact absurd h.1 (by simp)

/-- Instance of C10 for a page size of 4096 on `worldF`: empty free list, and the header write
of the extension fails. -/
theorem get_free_page_returns_no_page_witness :
    2 ≤ 4096 ∧ worldF.g_header_page = some headerD ∧
    ((∃ w1, get_free_page 4096 worldF = some (none, w1)) ∧
      ∀ page w1, get_free_page 4096 worldF = some (some page, w1) → page.offset ≠ 0) :=
  ⟨by decide, rfl, get_free_page_returns_no_page 4096 (by decide) worldF headerD rfl⟩

/-! ## Lemmas on 4-byte fields and on the node header -/

theorem length_le_bytes32 (v : Int) : (le_bytes32 v).length = 4 := by
  simp [le_bytes32]

theorem le_value32_le_bytes32 (v : Int) : le_value32 (le_bytes32 v) = wrap32 v := by
  have h0 : (0 : Int) ≤ v % 4294967296 := Int.emod_nonneg _ (by decide)
  have h1 : v % 4294967296 < 4294967296 := Int.emod_lt_of_pos _ (by decide)
  obtain ⟨u, hu⟩ := Int.eq_ofNat_of_zero_le h0
  have hlt : u < 4294967296 := by omega
  have hsum : u % 256 + 256 * (u / 256 % 256) + 65536 * (u / 65536 % 256) +
      16777216 * (u / 16777216 % 256) = u := by omega
  simp only [le_value32, le_bytes32, hu, Int.toNat_ofNat, List.getD_cons_zero,
    List.getD_cons_succ, hsum]
  unfold wrap32
  simp only [Int.ofNat_eq_coe]
  omega

theorem getI32_setI32_same (buf : List Nat) (off : Nat) (v : Int) (h : off ≤ buf.length) :
    getI32 (setI32 buf off v) off = wrap32 v := by
  have hl : (buf.take off).length = off := by simp [h]
  have h4 : (le_bytes32 v).length = 4 := length_le_bytes32 v
  unfold getI32 setI32
  rw [List.append_assoc, List.drop_left' hl, List.take_left' h4, le_value32_le_bytes32]

theorem getI32_setI32_below (buf : List Nat) (off off' : Nat) (v : Int)
    (h : off' + 4 ≤ off) (hb : off ≤ buf.length) :
    getI32 (setI32 buf off v) off' = getI32 buf off' := by
  have hl : (buf.take off).length = off := by simp [hb]
  have h1 : off' ≤ (buf.take off).length := by rw [hl]; omega
  have h2 : 4 ≤ ((buf.take off).drop off').length := by rw [List.length_drop, hl]; omega
  unfold getI32 setI32
  rw [List.append_assoc, List.drop_append_of_le_length h1,
    List.take_append_of_le_length h2, List.drop_take, List.take_take]
  rw [show min 4 (off - off') = 4 by omega]

theorem getI32_setI32_above (buf : List Nat) (off off' : Nat) (v : Int)
    (h : off + 4 ≤ off') (hb : off ≤ buf.length) :
    getI32 (setI32 buf off v) off' = getI32 buf off' := by
  have hl : (buf.take off ++ le_bytes32 v).length = off + 4 := by
    simp [hb, length_le_bytes32]
  unfold getI32 setI32
  obtain ⟨k, rfl⟩ : ∃ k, off' = off + 4 + k := ⟨off' - (off + 4), by omega⟩
  rw [← hl, List.drop_append, hl, List.drop_drop]

theorem length_setI32 (buf : List Nat) (off : Nat) (v : Int) (h : off + 4 ≤ buf.length) :
    (setI32 buf off v).length = buf.length := by
  simp [setI32, length_le_bytes32]; omega

/-- The node header after the two assignments of `get_new_page`: the leaf flag is 1 for
`LEAF_PAGE` and 0 otherwise, the key count is 0, the offset of the page is kept. -/
theorem get_new_page_node_fields (L : NodeLayout) (type : PAGE_TYPE) (page : Page)
    (hL : L.is_leaf_at + 4 ≤ L.number_of_keys_at ∨ L.number_of_keys_at + 4 ≤ L.is_leaf_at)
    (h1 : L.is_leaf_at + 4 ≤ page.ptr_page.length)
    (h2 : L.number_of_keys_at + 4 ≤ page.ptr_page.length) :
    is_leaf L (get_new_page_node L type page)
        = (if type = PAGE_TYPE.LEAF_PAGE then 1 else 0) ∧
      number_of_keys L (get_new_page_node L type page) = 0 ∧
      (get_new_page_node L type page).offset = page.offset ∧
      (get_new_page_node L type page).ptr_page.length = page.ptr_page.length := by
  have hl : (setI32 page.ptr_page L.is_leaf_at
      (if type = PAGE_TYPE.LEAF_PAGE then 1 else 0)).length = page.ptr_page.length :=
    length_setI32 _ _ _ h1
  unfold is_leaf number_of_keys get_new_page_node set_number_of_keys set_is_leaf
  simp only
  refine ⟨?_, ?_, trivial, ?_⟩
  · rcases hL with hL | hL
    · rw [getI32_setI32_below _ _ _ _ hL (by rw [hl]; omega),
        getI32_setI32_same _ _ _ (by omega)]
      split <;> rfl
    · rw [getI32_setI32_above _ _ _ _ hL (by rw [hl]; omega),
        getI32_setI32_same _ _ _ (by omega)]
      split <;> rfl
  · rw [getI32_setI32_same _ _ _ (by rw [hl]; omega)]
    rfl
  · rw [length_setI32 _ _ _ (by rw [hl]; omega), hl]

/-! ## C14: page factory, kinds leaf, internal and free -/

/-- C15: in every state, also with no file open, `get_new_page(HEADER_PAGE)` returns a page
with offset 0, `free_page_offset` 0, `root_page_offset` 0 and `number_of_pages` 1, and the
state after the call is the state before: no library call is made, the file, the free list
and the cached header are untouched. -/
theorem get_new_page_header_kind (PAGE_SIZE sizeof_HeaderPage : Nat) (L : NodeLayout)
    (w : World) (hsz : 24 ≤ sizeof_HeaderPage) :
    ∃ page, get_new_page PAGE_SIZE sizeof_HeaderPage L w PAGE_TYPE.HEADER_PAGE
        = some (some page, w) ∧
      page.offset = 0 ∧ free_page_offset page = 0 ∧ root_page_offset page = 0 ∧
      number_of_pages page = 1 := by
  obtain ⟨h1, h2, h3, -, h5⟩ := get_new_page_header_fields sizeof_HeaderPage hsz
  exact ⟨_, rfl, h5, h1, h2, h3⟩

/-- Instance of C15 in the state `worldN`, where no file is open, and in the state `worldE`,
where a file is open and a header is cached. -/
theorem get_new_page_header_kind_witness :
    24 ≤ 4096 ∧
    (∃ page, get_new_page 4096 4096 layoutN worldN PAGE_TYPE.HEADER_PAGE
        = some (some page, worldN) ∧
      page.offset = 0 ∧ free_page_offset page = 0 ∧ root_page_offset page = 0 ∧
      number_of_pages page = 1) ∧
    (∃ page, get_new_page 4096 4096 layoutN worldE PAGE_TYPE.HEADER_PAGE
        = some (some page, worldE) ∧
      page.offset = 0 ∧ free_page_offset page = 0 ∧ root_page_offset page = 0 ∧
      number_of_pages page = 1) :=
  ⟨by decide, get_new_page_header_kind 4096 4096 layoutN worldN (by decide),
    get_new_page_header_kind 4096 4096 layoutN worldE (by decide)⟩

/-! ## C16: the contract of `read_page` -/

/-- A page that the file holds at `offset` is read in full when no library call is set to
fail, and the buffer then holds the bytes of the file at `offset`. -/
theorem read_page_transfer_run (PAGE_SIZE : Nat) (hp : 0 < PAGE_SIZE) (w : World)
    (f : FileState) (offset : Int) (hf : w.g_db_file = some f) (hs : w.script = [])
    (ha : offset % 8 = 0) (hn : 0 ≤ offset)
    (hl : offset.toNat + PAGE_SIZE ≤ f.contents.length) :
    read_in_full PAGE_SIZE w offset ∧
      (read_page_transfer PAGE_SIZE w offset).2.1
        = (f.contents.drop offset.toNat).take PAGE_SIZE := by
  have hnn : ¬ offset < 0 := by omega
  have h0 : PAGE_SIZE ≠ 0 := by omega
  have hm : min PAGE_SIZE (f.contents.length - offset.toNat) = PAGE_SIZE := by omega
  refine ⟨⟨by rw [hf]; rfl, ha, ?_, ?_⟩, ?_⟩
  · simp [fseeko, nextOutcome, hf, hs, hnn]
  · simp [read_page_transfer, fseeko, fread, nextOutcome, hf, hs, hnn, h0, hm,
      Nat.div_self hp]
  · simp [read_page_transfer, fseeko, fread, nextOutcome, hf, hs, hnn, hm]

/-- C16, evaluation at the failing input: with a page size of 4096, an open file of two
pages and no failing library call, `read_page(4096)` passes the test of line 71, seeks to
4096 and `fread` delivers the whole page into the buffer (its bytes are those of the file at
4096), and the result is `NULL`.  The claim requires the page in this case. -/
theorem read_page_full_page_returns_null :
    read_in_full 4096 worldB 4096 ∧
    (read_page_transfer 4096 worldB 4096).2.1
      = ((List.replicate 8192 0).drop 4096).take 4096 ∧
    read_page 4096 worldB 4096 =
      (none, { worldB with
        g_db_file := some { contents := List.replicate 8192 0, pos := 8192 },
        trace := [LibCall.seek 4096 true, LibCall.read 4096 4096 4096] }) := by
  have hl : (4096 : Int).toNat + 4096 ≤ (List.replicate 8192 0).length := by
    simp only [List.length_replicate]; decide
  obtain ⟨h1, h2⟩ := read_page_transfer_run 4096 (by decide) worldB
    ⟨List.replicate 8192 0, 0⟩ 4096 rfl rfl (by decide) (by decide) hl
  refine ⟨h1, h2, ?_⟩
  rw [read_page_run 4096 (by decide) worldB ⟨List.replicate 8192 0, 0⟩ 4096 rfl rfl
    (by decide) (by decide) hl]
  rfl

/-! ## C17: the contract of `write_page` -/

theorem writeAt_read_back (c : List Nat) (pos : Nat) (data : List Nat) (hd : data ≠ []) :
    ((writeAt c pos data).drop pos).take data.length = data := by
  have he : data.isEmpty = false := by
    cases data with
    | nil => exact absurd rfl hd
    | cons a t => rfl
  have hl : (c.take pos ++ List.replicate (pos - c.length) 0).length = pos := by
    simp only [List.length_append, List.length_take, List.length_replicate]; omega
  unfold writeAt
  rw [he]
  simp only [Bool.false_eq_true, if_false]
  rw [List.append_assoc, List.drop_left' hl, List.take_left]

/-- C17, evaluation at the failing input: with a page size of 4096, an open file of two
pages and no failing library call, `write_page` of a page for offset 4096 seeks to 4096 and
writes all 4096 bytes, which then stand in the file at 4096, and the result is -1; no
`fflush` is made.  The claim requires the result 0 and the flush in this case. -/
theorem write_page_full_page_returns_failure :
    write_page 4096 worldB pageW =
      (-1, { worldB with
        g_db_file := some { contents := writeAt (List.replicate 8192 0) 4096 pageW.ptr_page,
                            pos := 8192 },
        trace := [LibCall.seek 4096 true, LibCall.write 4096 4096 4096] }) ∧
    ((writeAt (List.replicate 8192 0) 4096 pageW.ptr_page).drop 4096).take 4096
      = pageW.ptr_page := by
  have hlen : pageW.ptr_page.length = 4096 := by simp only [pageW, List.length_replicate]
  have hd : pageW.ptr_page ≠ [] := by
    intro h0
    rw [h0] at hlen
    exact absurd hlen (by decide)
  constructor
  · rw [write_page_run 4096 (by decide) worldB ⟨List.replicate 8192 0, 0⟩ pageW rfl rfl
      (by decide) (by decide) hlen]
    rfl
  · have h := writeAt_read_back (List.replicate 8192 0) 4096 pageW.ptr_page hd
    rw [hlen] at h
    exact h

/-! ## C18: page count after an extension -/

theorem getI64_writeAt_inside (c : List Nat) (pos off : Nat) (data : List Nat)
    (h : off + 8 ≤ data.length) :
    getI64 (writeAt c pos data) (pos + off) = getI64 data off := by
  have he : data.isEmpty = false := by
    cases data with
    | nil => simp at h
    | cons a t => rfl
  have hl : (c.take pos ++ List.replicate (pos - c.length) 0).length = pos := by
    simp only [List.length_append, List.length_take, List.length_replicate]; omega
  have h2 : 8 ≤ (data.drop off).length := by rw [List.length_drop]; omega
  have key : ∀ (P X : List Nat), P.length = pos →
      List.drop (pos + off) (P ++ X) = List.drop off X := by
    intro P X hP
    subst hP
    exact List.drop_append _
  unfold getI64 writeAt
  rw [he]
  simp only [Bool.false_eq_true, if_false]
  rw [List.append_assoc, key _ _ hl, List.drop_append_of_le_length (by omega),
    List.take_append_of_le_length h2]

/-- C18, evaluation at the failing input: with a page size of 4096, the header fields (head
0, root 0, count 1) and no failing library call, the header write of `make_free_pages(2)`
puts the header with head 4096 and count 3 into the file at offset 0, and yet
`make_free_pages` returns -1 and the header in memory has count 1 and head 0 again.  The
claim requires the result 0 and the count 3. -/
theorem make_free_pages_count_not_increased :
    ∃ w1 f1, make_free_pages 4096 worldD 2 = some (-1, w1) ∧
      w1.g_header_page.map number_of_pages = some 1 ∧
      w1.g_header_page.map free_page_offset = some 0 ∧
      w1.g_db_file = some f1 ∧
      getI64 f1.contents 0 = 4096 ∧ getI64 f1.contents 16 = 3 := by
  obtain ⟨h1, -, h3, h4, h5⟩ := headerD_fields
  obtain ⟨u1, u2, -, -, -⟩ := make_free_pages_undo_fields 4096 headerD 2 (by omega)
  obtain ⟨m1, m2, -, ml, -⟩ := make_free_pages_header_fields 4096 headerD 2 (by omega)
  refine ⟨_, _, make_free_pages_run 4096 (by decide) worldD ⟨headerD.ptr_page, 0⟩ headerD 2
    rfl rfl rfl h5 h4, ?_, ?_, rfl, ?_, ?_⟩
  · simp only [Option.map_some']; rw [u2, h3]
  · simp only [Option.map_some']; rw [u1, h1]
  · have h := getI64_writeAt_inside headerD.ptr_page 0 0
      (make_free_pages_header 4096 headerD 2).ptr_page (by rw [ml, h4]; decide)
    simp only [Nat.zero_add] at h
    rw [h]
    show free_page_offset (make_free_pages_header 4096 headerD 2) = 4096
    rw [m1, h3]
    rfl
  · have h := getI64_writeAt_inside headerD.ptr_page 0 16
      (make_free_pages_header 4096 headerD 2).ptr_page (by rw [ml, h4]; decide)
    simp only [Nat.zero_add] at h
    rw [h]
    show number_of_pages (make_free_pages_header 4096 headerD 2) = 3
    rw [m2, h3]
    rfl

/-! ## C19: the alignment test is a test for multiples of 8 -/

theorem nextOutcome_trace (w : World) : (nextOutcome w).2.trace = w.trace :=
  (nextOutcome_snd w).2.1

theorem fseeko_trace (w : World) (f : FileState) (offset : Int) (hf : w.g_db_file = some f) :
    ∃ ok, (fseeko w offset).2.trace = w.trace ++ [LibCall.seek offset ok] := by
  have h := nextOutcome_file w
  have ht := nextOutcome_trace w
  unfold fseeko
  generalize nextOutcome w = p at h ht
  rcases p with ⟨o, w1⟩
  simp only at h ht ⊢
  rw [h, hf]
  simp only
  split
  · exact ⟨false, by rw [ht]⟩
  · exact ⟨true, by rw [ht]⟩

theorem fread_trace (w : World) (buf : List Nat) (size nmemb : Nat) :
    ∃ rest, (fread w buf size nmemb).2.2.trace = w.trace ++ rest := by
  have ht := nextOutcome_trace w
  unfold fread
  generalize nextOutcome w = p at ht
  rcases p with ⟨o, w1⟩
  simp only at ht ⊢
  cases w1.g_db_file with
  | none => exact ⟨[], by simp only [List.append_nil]; exact ht⟩
  | some f => exact ⟨_, by simp only; rw [ht]⟩

theorem fwrite_trace (w : World) (buf : List Nat) (size nmemb : Nat) :
    ∃ rest, (fwrite w buf size nmemb).2.trace = w.trace ++ rest := by
  have ht := nextOutcome_trace w
  unfold fwrite
  generalize nextOutcome w = p at ht
  rcases p with ⟨o, w1⟩
  simp only at ht ⊢
  cases w1.g_db_file with
  | none => exact ⟨[], by simp only [List.append_nil]; exact ht⟩
  | some f => exact ⟨_, by simp only; rw [ht]⟩

/-- C19: an offset that is not a multiple of 8 is rejected by `read_page` and by
`write_page` before any library call (the state, trace included, is unchanged); an offset
that is a multiple of 8 passes the test of both functions, whether or not it is a multiple
of `PAGE_SIZE`: with a file open, the next library call of both is the `fseeko` to that
offset. -/
theorem alignment_check_multiples_of_8 (PAGE_SIZE : Nat) (w : World) (page : Page) :
    (page.offset % 8 ≠ 0 →
      read_page PAGE_SIZE w page.offset = (none, w) ∧ write_page PAGE_SIZE w page = (-1, w)) ∧
    (page.offset % 8 = 0 → w.g_db_file.isSome = true →
      (∃ ok rest, (read_page PAGE_SIZE w page.offset).2.trace
        = w.trace ++ LibCall.seek page.offset ok :: rest) ∧
      (∃ ok rest, (write_page PAGE_SIZE w page).2.trace
        = w.trace ++ LibCall.seek page.offset ok :: rest)) := by
  constructor
  · intro h
    unfold read_page write_page
    cases w.g_db_file with
    | none => exact ⟨rfl, rfl⟩
    | some f => simp only [h, ne_eq, not_false_eq_true, if_true, and_self]
  · intro h hopen
    cases hf : w.g_db_file with
    | none => rw [hf] at hopen; exact absurd hopen (by decide)
    | some f =>
      obtain ⟨ok, hseek⟩ := fseeko_trace w f page.offset hf
      constructor
      · unfold read_page
        rw [hf]
        simp only [h, ne_eq, not_true_eq_false, if_false]
        split
        · exact ⟨ok, [], hseek⟩
        · obtain ⟨rest, hr⟩ := fread_trace (fseeko w page.offset).2
            (List.replicate PAGE_SIZE 0) PAGE_SIZE 1
          split
          · exact ⟨ok, rest, by rw [hr, hseek, List.append_assoc]; rfl⟩
          · exact ⟨ok, rest, by rw [hr, hseek, List.append_assoc]; rfl⟩
      · unfold write_page
        rw [hf]
        simp only [h, ne_eq, not_true_eq_false, if_false]
        split
        · exact ⟨ok, [], hseek⟩
        · obtain ⟨rest, hr⟩ := fwrite_trace (fseeko w page.offset).2 page.ptr_page PAGE_SIZE 1
          split
          · exact ⟨ok, rest, by rw [hr, hseek, List.append_assoc]; rfl⟩
          · refine ⟨ok, rest ++ [LibCall.flush], ?_⟩
            unfold fflush
            simp only
            rw [hr, hseek, List.append_assoc, List.append_assoc]
            rfl

/-- Instance of C19 for a page size of 4096 and an open file: offset 4100 is rejected
without a library call, offset 8 (not a multiple of 4096) passes the test. -/
theorem alignment_check_multiples_of_8_witness :
    (pageC.offset % 8 ≠ 0 ∧
      read_page 4096 worldB pageC.offset = (none, worldB) ∧
      write_page 4096 worldB pageC = (-1, worldB)) ∧
    (pageB.offset % 8 = 0 ∧ pageB.offset % 4096 ≠ 0 ∧ worldB.g_db_file.isSome = true ∧
      (∃ ok rest, (read_page 4096 worldB pageB.offset).2.trace
        = worldB.trace ++ LibCall.seek pageB.offset ok :: rest) ∧
      (∃ ok rest, (write_page 4096 worldB pageB).2.trace
        = worldB.trace ++ LibCall.seek pageB.offset ok :: rest)) :=
  ⟨⟨by decide, (alignment_check_multiples_of_8 4096 worldB pageC).1 (by decide)⟩,
    by decide, by decide, rfl,
    (alignment_check_multiples_of_8 4096 worldB pageB).2 (by decide) rfl⟩

/-! ## C20: the free-page writes are not checked -/

/-- The loop of `make_free_pages` always runs to its end and leaves the cached pages alone,
whatever its calls of `write_page` return. -/
theorem make_free_pages_loop_total (PAGE_SIZE : Nat) (prev n : Int) :
    ∀ (fuel : Nat) (i : Int) (w : World) (hp : Page), w.g_header_page = some hp →
      ∃ w2, make_free_pages_loop PAGE_SIZE prev n fuel i w = some w2 ∧ sameMemory w w2 := by
  intro fuel
  induction fuel with
  | zero => intro i w hp _; exact ⟨w, rfl, sameMemory_refl w⟩
  | succ k ih =>
    intro i w hp hw
    by_cases hi : i ≤ n
    · rw [make_free_pages_loop_step PAGE_SIZE prev n k i w hp hw hi]
      have hm := write_page_sameMemory PAGE_SIZE w
        { ptr_page := le_bytes (if i = n then (number_of_pages hp + i) * PAGE_SIZE else prev)
            ++ w.junk.take (PAGE_SIZE - 8),
          offset := wrap64 ((number_of_pages hp + i - 1) * PAGE_SIZE) }
      obtain ⟨w2, h2, hs⟩ := ih (i + 1) _ hp (by rw [hm.1, hw])
      exact ⟨w2, h2, sameMemory_trans hm hs⟩
    · refine ⟨w, ?_, sameMemory_refl w⟩
      rw [make_free_pages_loop]
      simp only [hi, if_false]

/-- Lines 123-134 on their own: in the state left by the header write of
`make_free_pages(n)`, whatever outcomes the library calls still have, the loop over the `n`
free pages runs to its end without a failure result and keeps the updated header; and if the
header write has returned 0, `make_free_pages` returns 0 in the state the loop leaves. -/
theorem make_free_pages_unchecked_writes (PAGE_SIZE : Nat) (w : World) (hp : Page) (n : Int)
    (hw : w.g_header_page = some hp) :
    ∃ w2, make_free_pages_loop PAGE_SIZE (free_page_offset hp) n n.toNat 1
        (write_page PAGE_SIZE
          { w with g_header_page := some (make_free_pages_header PAGE_SIZE hp n) }
          (make_free_pages_header PAGE_SIZE hp n)).2 = some w2 ∧
      w2.g_header_page = some (make_free_pages_header PAGE_SIZE hp n) ∧
      ((write_page PAGE_SIZE
          { w with g_header_page := some (make_free_pages_header PAGE_SIZE hp n) }
          (make_free_pages_header PAGE_SIZE hp n)).1 = 0 →
        make_free_pages PAGE_SIZE w n = some (0, w2)) := by
  have hm := write_page_sameMemory PAGE_SIZE
    { w with g_header_page := some (make_free_pages_header PAGE_SIZE hp n) }
    (make_free_pages_header PAGE_SIZE hp n)
  have hh : (write_page PAGE_SIZE
      { w with g_header_page := some (make_free_pages_header PAGE_SIZE hp n) }
      (make_free_pages_header PAGE_SIZE hp n)).2.g_header_page
      = some (make_free_pages_header PAGE_SIZE hp n) := by rw [hm.1]
  obtain ⟨w2, h2, hs⟩ := make_free_pages_loop_total PAGE_SIZE (free_page_offset hp) n
    n.toNat 1 _ _ hh
  refine ⟨w2, h2, by rw [hs.1, hh], ?_⟩
  intro hok
  unfold make_free_pages
  rw [hw]
  simp only
  rw [if_neg (by rw [hok]; decide), h2]
  rfl

set_option maxRecDepth 20000 in
/-- Run of `make_free_pages(8)` for a page size of 1 on `worldP`: the header write returns 0,
seven free-page writes are refused by the alignment test and the eighth fails in `fwrite`,
and the result is 0 with the count raised from 1 to 9. -/
theorem make_free_pages_page_size_one_run :
    (write_page 1 { worldP with
        g_header_page := some (make_free_pages_header 1 (get_new_page_header 24) 8) }
      (make_free_pages_header 1 (get_new_page_header 24) 8)).1 = 0 ∧
    (make_free_pages 1 worldP 8).map
        (fun r => (r.1, r.2.g_header_page.map number_of_pages, r.2.trace))
      = some (0, some 9,
          [LibCall.seek 0 true, LibCall.write 0 1 1, LibCall.flush,
           LibCall.seek 16 true, LibCall.write 16 1 0]) := by
  decide

/-- Run of `write_page` when the next two library calls run normally: the whole page is
written at its offset, and the result is -1 all the same (for a page size of at least 2);
the outcomes of the later calls are left in the script. -/
theorem write_page_run_script (PAGE_SIZE : Nat) (h2 : 2 ≤ PAGE_SIZE) (w : World)
    (f : FileState) (page : Page) (rest : List (Option Nat)) (hf : w.g_db_file = some f)
    (hs : w.script = none :: none :: rest)
    (ha : page.offset % 8 = 0) (hn : 0 ≤ page.offset)
    (hl : page.ptr_page.length = PAGE_SIZE) :
    write_page PAGE_SIZE w page =
      (-1, { w with
        g_db_file := some { contents := writeAt f.contents page.offset.toNat page.ptr_page,
                            pos := page.offset.toNat + PAGE_SIZE },
        script := rest,
        trace := w.trace ++ [LibCall.seek page.offset true,
                             LibCall.write page.offset.toNat PAGE_SIZE PAGE_SIZE] }) := by
  have hnn : ¬ page.offset < 0 := by omega
  have h0 : PAGE_SIZE ≠ 0 := by omega
  have h1 : ¬ (1 = PAGE_SIZE) := by omega
  have hp : 0 < PAGE_SIZE := by omega
  simp [write_page, fseeko, fwrite, nextOutcome, hf, hs, ha, hnn, h0, h1, hl,
    List.take_of_length_le, Nat.div_self hp]

/-- C20, evaluation at the failing input: with a page size of 4096, the header fields (head
0, root 0, count 1) and a script in which the header write runs normally and the first write
of a free page would fail, the header write of `make_free_pages(2)` puts all 4096 bytes of
the updated header into the file, and yet `make_free_pages` returns -1 and undoes the header
fields (count 1, head 0); no free page is written and the failing call is still in the
script.  The claim requires the result 0 and the updated header after a header write that
succeeded. -/
theorem make_free_pages_rolls_back_after_header_write :
    ∃ f1 hp1, make_free_pages 4096 worldQ 2 =
        some (-1, { worldQ with
          g_db_file := some f1, g_header_page := some hp1, script := [none, some 0],
          trace := [LibCall.seek 0 true, LibCall.write 0 4096 4096] }) ∧
      (f1.contents.drop 0).take 4096 = (make_free_pages_header 4096 headerD 2).ptr_page ∧
      number_of_pages (make_free_pages_header 4096 headerD 2) = 3 ∧
      number_of_pages hp1 = 1 ∧ free_page_offset hp1 = 0 := by
  obtain ⟨h1, -, h3, h4, h5⟩ := headerD_fields
  obtain ⟨u1, u2, -, -, -⟩ := make_free_pages_undo_fields 4096 headerD 2 (by omega)
  obtain ⟨-, m2, -, ml, mo⟩ := make_free_pages_header_fields 4096 headerD 2 (by omega)
  have hd : (make_free_pages_header 4096 headerD 2).ptr_page ≠ [] := by
    intro h0
    rw [h0, h4] at ml
    exact absurd ml (by decide)
  have hrun := write_page_run_script 4096 (by decide)
    { worldQ with g_header_page := some (make_free_pages_header 4096 headerD 2) }
    ⟨headerD.ptr_page, 0⟩ (make_free_pages_header 4096 headerD 2) [none, some 0] rfl rfl
    (by rw [mo, h5]; decide) (by rw [mo, h5]) (by rw [ml, h4])
  rw [mo, h5] at hrun
  refine ⟨⟨writeAt headerD.ptr_page 0 (make_free_pages_header 4096 headerD 2).ptr_page, 4096⟩,
    make_free_pages_undo (make_free_pages_header 4096 headerD 2) (free_page_offset headerD) 2,
    ?_, ?_, ?_, u2.trans h3, u1.trans h1⟩
  · rw [make_free_pages_fails 4096 (by decide) worldQ headerD 2 rfl, hrun]
    rfl
  · have h := writeAt_read_back headerD.ptr_page 0
      (make_free_pages_header 4096 headerD 2).ptr_page hd
    rw [ml, h4] at h
    exact h
  · rw [m2, h3]
    rfl

/-! ## Lemmas on the page count -/

/-- Whatever the library calls do, `make_free_pages` returns with a cached header whose page
count is the previous one (the update was undone) or the previous one plus the number of
pages asked for. -/
theorem make_free_pages_page_count (PAGE_SIZE : Nat) (w : World) (hp : Page) (n : Int)
    (hw : w.g_header_page = some hp) (hlen : 24 ≤ hp.ptr_page.length) :
    ∃ rc w1 hp1, make_free_pages PAGE_SIZE w n = some (rc, w1) ∧
      w1.g_header_page = some hp1 ∧ hp1.ptr_page.length = hp.ptr_page.length ∧
      (number_of_pages hp1 = number_of_pages hp ∨
        number_of_pages hp1 = wrap64 (number_of_pages hp + n)) := by
  obtain ⟨-, m2, -, ml, -⟩ := make_free_pages_header_fields PAGE_SIZE hp n hlen
  obtain ⟨-, u2, -, ul, -⟩ := make_free_pages_undo_fields PAGE_SIZE hp n hlen
  by_cases hrc : (write_page PAGE_SIZE
      { w with g_header_page := some (make_free_pages_header PAGE_SIZE hp n) }
      (make_free_pages_header PAGE_SIZE hp n)).1 ≠ 0
  · exact ⟨-1, _, _, make_free_pages_of_write_fails PAGE_SIZE w hp n hw hrc, rfl, ul,
      Or.inl u2⟩
  · have hm := write_page_sameMemory PAGE_SIZE
      { w with g_header_page := some (make_free_pages_header PAGE_SIZE hp n) }
      (make_free_pages_header PAGE_SIZE hp n)
    obtain ⟨w2, h2, hs⟩ := make_free_pages_loop_total PAGE_SIZE (free_page_offset hp) n
      n.toNat 1 _ (make_free_pages_header PAGE_SIZE hp n) hm.1
    refine ⟨0, w2, make_free_pages_header PAGE_SIZE hp n, ?_, ?_, ml, Or.inr m2⟩
    · unfold make_free_pages
      rw [hw]
      simp only
      rw [if_neg hrc, h2]
      rfl
    · rw [hs.1, hm.1]

/-- Whatever the library calls do, `get_free_page` returns with a cached header whose page
count is the previous one or the previous one plus the extension batch of 10. -/
theorem get_free_page_page_count (PAGE_SIZE : Nat) (w : World) (hp : Page)
    (hw : w.g_header_page = some hp) (hlen : 24 ≤ hp.ptr_page.length) :
    ∃ r w1 hp1, get_free_page PAGE_SIZE w = some (r, w1) ∧
      w1.g_header_page = some hp1 ∧ hp1.ptr_page.length = hp.ptr_page.length ∧
      (number_of_pages hp1 = number_of_pages hp ∨
        number_of_pages hp1 = wrap64 (number_of_pages hp + 10)) := by
  have hext : ∃ w1 hp1, get_free_page_extend PAGE_SIZE w = some w1 ∧
      w1.g_header_page = some hp1 ∧ hp1.ptr_page.length = hp.ptr_page.length ∧
      (number_of_pages hp1 = number_of_pages hp ∨
        number_of_pages hp1 = wrap64 (number_of_pages hp + 10)) := by
    unfold get_free_page_extend
    rw [hw]
    by_cases he : free_page_offset hp = 0
    · obtain ⟨rc, w1, hp1, hm, h1, h2, h3⟩ :=
        make_free_pages_page_count PAGE_SIZE w hp 10 hw hlen
      simp only [he, if_true]
      rw [hm]
      exact ⟨w1, hp1, rfl, h1, h2, h3⟩
    · simp only [he, if_false]
      exact ⟨w, hp, rfl, hw, rfl, Or.inl rfl⟩
  obtain ⟨w1, hp1, he1, hh1, hl1, hn1⟩ := hext
  have hm := read_page_sameMemory PAGE_SIZE w1 (free_page_offset hp1)
  unfold get_free_page
  rw [he1]
  simp only [hh1]
  generalize read_page PAGE_SIZE w1 (free_page_offset hp1) = rd at hm ⊢
  obtain ⟨r, w2⟩ := rd
  cases r with
  | none => exact ⟨none, w2, hp1, rfl, by rw [hm.1, hh1], hl1, hn1⟩
  | some pg =>
    simp only
    have hm2 := write_page_sameMemory PAGE_SIZE
      { w2 with g_header_page := some (set_free_page_offset hp1 (next_free_page_offset pg)) }
      (set_free_page_offset hp1 (next_free_page_offset pg))
    have hl2 : (set_free_page_offset hp1 (next_free_page_offset pg)).ptr_page.length
        = hp.ptr_page.length := by
      rw [length_set_free_page_offset _ _ (by omega), hl1]
    split
    · refine ⟨none, _, _, rfl, rfl, ?_, ?_⟩
      · rw [length_set_free_page_offset _ _ (by omega), hl2]
      · rw [number_of_pages_set_free_page_offset, number_of_pages_set_free_page_offset]
        exact hn1
    · refine ⟨some pg, _, _, rfl, hm2.1, hl2, ?_⟩
      rw [number_of_pages_set_free_page_offset]
      exact hn1

/-- The page count after `get_new_page` for a kind other than the header kind. -/
theorem get_new_page_page_count (PAGE_SIZE sz : Nat) (L : NodeLayout) (w : World) (hp : Page)
    (type : PAGE_TYPE) (ht : type ≠ PAGE_TYPE.HEADER_PAGE)
    (hw : w.g_header_page = some hp) (hlen : 24 ≤ hp.ptr_page.length) :
    ∃ r w1 hp1, get_new_page PAGE_SIZE sz L w type = some (r, w1) ∧
      w1.g_header_page = some hp1 ∧ hp1.ptr_page.length = hp.ptr_page.length ∧
      (number_of_pages hp1 = number_of_pages hp ∨
        number_of_pages hp1 = wrap64 (number_of_pages hp + 10)) := by
  obtain ⟨r, w1, hp1, hg, h1, h2, h3⟩ := get_free_page_page_count PAGE_SIZE w hp hw hlen
  cases type with
  | HEADER_PAGE => exact absurd rfl ht
  | FREE_PAGE => exact ⟨r, w1, hp1, by simp only [get_new_page, hg], h1, h2, h3⟩
  | LEAF_PAGE =>
    cases r with
    | none => exact ⟨none, w1, hp1, by simp only [get_new_page, hg], h1, h2, h3⟩
    | some pg =>
      exact ⟨some (get_new_page_node L PAGE_TYPE.LEAF_PAGE pg), w1, hp1,
        by simp only [get_new_page, hg], h1, h2, h3⟩
  | INTERNAL_PAGE =>
    cases r with
    | none => exact ⟨none, w1, hp1, by simp only [get_new_page, hg], h1, h2, h3⟩
    | some pg =>
      exact ⟨some (get_new_page_node L PAGE_TYPE.INTERNAL_PAGE pg), w1, hp1,
        by simp only [get_new_page, hg], h1, h2, h3⟩

/-! ## Lemmas on the database session -/

/-- Run of `get_new_page` for a node kind on an empty free list when no library call fails:
the run of `get_free_page`, with the result `NULL`. -/
theorem get_new_page_run_empty (PAGE_SIZE sz : Nat) (L : NodeLayout) (h24 : 24 ≤ PAGE_SIZE)
    (w : World) (f : FileState) (hp : Page) (type : PAGE_TYPE)
    (hk : type = PAGE_TYPE.LEAF_PAGE ∨ type = PAGE_TYPE.INTERNAL_PAGE)
    (hw : w.g_header_page = some hp)
    (hf : w.g_db_file = some f) (hs : w.script = []) (hoff : hp.offset = 0)
    (hlen : hp.ptr_page.length = PAGE_SIZE) (he : free_page_offset hp = 0) :
    get_new_page PAGE_SIZE sz L w type =
      some (none, { w with
        g_db_file := some
          { contents := writeAt f.contents 0 (make_free_pages_header PAGE_SIZE hp 10).ptr_page,
            pos := PAGE_SIZE },
        g_header_page := some (make_free_pages_undo (make_free_pages_header PAGE_SIZE hp 10)
          (free_page_offset hp) 10),
        trace := w.trace ++ [LibCall.seek 0 true, LibCall.write 0 PAGE_SIZE PAGE_SIZE,
          LibCall.seek 0 true, LibCall.read 0 PAGE_SIZE PAGE_SIZE] }) := by
  have hg := get_free_page_run_empty PAGE_SIZE h24 w f hp hw hf hs hoff hlen he
  rcases hk with hk | hk <;> subst hk <;> simp only [get_new_page, hg]

/-- On a process that has no stream and no cached page the first three statements of
`open_db` do nothing. -/
theorem open_db_clean_fresh (p : Process)
    (hf : p.world.g_db_file = none) (hh : p.world.g_header_page = none)
    (hr : p.world.g_root_page = none)
    (hhf : p.header_freed = false) (hrf : p.root_freed = false) :
    open_db_clean p = some p := by
  obtain ⟨w, files, pn, c, hfz, rfz⟩ := p
  obtain ⟨dbf, hd, rt, sc, tr, jk⟩ := w
  simp only at hf hh hr hhf hrf
  subst hf hh hr hhf hrf
  rfl

/-- Opening a path that names no file for `"r+"` fails. -/
theorem fopen_r_plus_missing (p : Process) (pathname : String)
    (hno : p.files.lookup pathname = none) :
    fopen p pathname Mode.r_plus =
      { p with world := { (nextOutcome p.world).2 with g_db_file := none },
               closed := false } := by
  unfold fopen
  generalize nextOutcome p.world = no
  obtain ⟨o, w1⟩ := no
  simp only [hno]

/-- Opening an existing file for `"r+"` when the call does not fail. -/
theorem fopen_r_plus_run (p : Process) (pathname : String) (bytes : List Nat)
    (hs : p.world.script = []) (hb : p.files.lookup pathname = some bytes) :
    fopen p pathname Mode.r_plus =
      { p with world := { p.world with g_db_file := some { contents := bytes, pos := 0 } },
               pathname := pathname, closed := false } := by
  unfold fopen nextOutcome
  rw [hs]
  simp only [hb]

/-- Opening a path for `"w+"` when the call does not fail. -/
theorem fopen_w_plus_run (p : Process) (pathname : String) (hs : p.world.script = []) :
    fopen p pathname Mode.w_plus =
      { p with world := { p.world with g_db_file := some { contents := [], pos := 0 } },
               files := (pathname, []) :: p.files.filter (fun e => !(e.1 == pathname)),
               pathname := pathname, closed := false } := by
  unfold fopen nextOutcome
  rw [hs]

/-- The cached pages and the marks of released pages are not touched by `fopen`. -/
theorem fopen_memory (p : Process) (pathname : String) (mode : Mode) :
    (fopen p pathname mode).world.g_header_page = p.world.g_header_page ∧
      (fopen p pathname mode).world.g_root_page = p.world.g_root_page ∧
      (fopen p pathname mode).header_freed = p.header_freed ∧
      (fopen p pathname mode).root_freed = p.root_freed := by
  have h := nextOutcome_snd p.world
  unfold fopen
  generalize nextOutcome p.world = no at h ⊢
  obtain ⟨o, w1⟩ := no
  have hm1 : w1.g_header_page = p.world.g_header_page := h.2.2.1
  have hm2 : w1.g_root_page = p.world.g_root_page := h.2.2.2.1
  simp only
  split <;> exact ⟨hm1, hm2, rfl, rfl⟩

theorem nextOutcome_nil (w : World) (hs : w.script = []) : nextOutcome w = (none, w) := by
  unfold nextOutcome
  rw [hs]

/-- When the write of the header page reports a failure, the two writes of `open_db` end
after the first one with the result -1. -/
theorem open_db_write_of_write_fails (PAGE_SIZE : Nat) (p : Process) (h : Page)
    (hh : p.world.g_header_page = some h)
    (hfail : (write_page PAGE_SIZE p.world h).1 ≠ 0) :
    open_db_write PAGE_SIZE p =
      some (-1, { p with world := (write_page PAGE_SIZE p.world h).2 }) := by
  unfold open_db_write write_page_ptr
  rw [hh]
  simp only [Option.some_bind]
  rw [if_pos hfail]

/-- The two writes of `open_db` keep the cached header page. -/
theorem open_db_write_memory (PAGE_SIZE : Nat) (p : Process) (h : Page)
    (hh : p.world.g_header_page = some h) (rc : Int) (p1 : Process)
    (heq : open_db_write PAGE_SIZE p = some (rc, p1)) :
    p1.world.g_header_page = some h := by
  have hm := write_page_sameMemory PAGE_SIZE p.world h
  unfold open_db_write write_page_ptr at heq
  rw [hh] at heq
  simp only [Option.some_bind] at heq
  generalize write_page PAGE_SIZE p.world h = r1 at hm heq
  obtain ⟨rc1, w1⟩ := r1
  simp only at hm heq
  split at heq
  · simp only [Option.some.injEq, Prod.mk.injEq] at heq
    obtain ⟨-, rfl⟩ := heq
    exact hm.1.trans hh
  · cases hr : w1.g_root_page with
    | none =>
      rw [hr] at heq
      simp only at heq
      split at heq
      · simp at heq
      · simp only [Option.map_some', Option.some.injEq, Prod.mk.injEq] at heq
        obtain ⟨-, rfl⟩ := heq
        exact hm.1.trans hh
    | some r =>
      rw [hr] at heq
      simp only [Option.map_some', Option.some.injEq, Prod.mk.injEq] at heq
      obtain ⟨-, rfl⟩ := heq
      have hm2 := write_page_sameMemory PAGE_SIZE w1 r
      exact (hm2.1.trans hm.1).trans hh

theorem open_db_new_header_eq (PAGE_SIZE sz : Nat) (L : NodeLayout) (p : Process) :
    open_db_new_header PAGE_SIZE sz L p =
      some { p with world := { p.world with g_header_page := some (get_new_page_header sz) },
                    header_freed := false } := rfl

theorem open_db_new_root_of (PAGE_SIZE sz : Nat) (L : NodeLayout) (p : Process)
    (rp : Option Page) (w2 : World)
    (h : get_new_page PAGE_SIZE sz L p.world PAGE_TYPE.INTERNAL_PAGE = some (rp, w2)) :
    open_db_new_root PAGE_SIZE sz L p =
      some { p with world := { w2 with g_root_page := rp }, root_freed := false } := by
  unfold open_db_new_root
  rw [h]
  rfl

theorem open_db_create_eq (PAGE_SIZE sz : Nat) (L : NodeLayout) (p : Process) :
    open_db_create PAGE_SIZE sz L p =
      (open_db_new_root PAGE_SIZE sz L
        { p with world := { p.world with g_header_page := some (get_new_page_header sz) },
                 header_freed := false }).bind (open_db_write PAGE_SIZE) := by
  unfold open_db_create
  rw [open_db_new_header_eq, Option.some_bind]

/-- The branch of `open_db` for a new file, in terms of the request for the root page. -/
theorem open_db_create_of (PAGE_SIZE sz : Nat) (L : NodeLayout) (p : Process)
    (rp : Option Page) (w2 : World)
    (h : get_new_page PAGE_SIZE sz L
      { p.world with g_header_page := some (get_new_page_header sz) }
      PAGE_TYPE.INTERNAL_PAGE = some (rp, w2)) :
    open_db_create PAGE_SIZE sz L p =
      open_db_write PAGE_SIZE
        { p with world := { w2 with g_root_page := rp }, header_freed := false,
                 root_freed := false } := by
  rw [open_db_create_eq,
    open_db_new_root_of PAGE_SIZE sz L
      { p with world := { p.world with g_header_page := some (get_new_page_header sz) },
               header_freed := false } rp w2 h, Option.some_bind]

/-- Whatever the library calls do, a header page that is cached when the branch of `open_db`
for a new file returns has the page count 1 or 11. -/
theorem open_db_create_page_count (PAGE_SIZE sz : Nat) (L : NodeLayout) (h24 : 24 ≤ sz)
    (p : Process) (rc : Int) (p1 : Process)
    (heq : open_db_create PAGE_SIZE sz L p = some (rc, p1)) :
    ∃ hp1, p1.world.g_header_page = some hp1 ∧ 24 ≤ hp1.ptr_page.length ∧
      (number_of_pages hp1 = 1 ∨ number_of_pages hp1 = 11) := by
  obtain ⟨-, -, h3, h4, -⟩ := get_new_page_header_fields sz h24
  obtain ⟨r, w1, hp1, hg, g1, g2, g3⟩ := get_new_page_page_count PAGE_SIZE sz L
    { p.world with g_header_page := some (get_new_page_header sz) } (get_new_page_header sz)
    PAGE_TYPE.INTERNAL_PAGE (by decide) rfl (by omega)
  rw [open_db_create_of PAGE_SIZE sz L p r w1 hg] at heq
  refine ⟨hp1, open_db_write_memory PAGE_SIZE _ hp1 g1 rc p1 heq, by omega, ?_⟩
  rw [h3] at g3
  rcases g3 with g3 | g3
  · exact Or.inl g3
  · right
    rw [g3]
    exact wrap64_of_range 11 (by decide) (by decide)

/-- For a page size of at least 2 the branch of `open_db` for a new file returns -1. -/
theorem open_db_create_fails (PAGE_SIZE sz : Nat) (L : NodeLayout) (h2 : 2 ≤ PAGE_SIZE)
    (h24 : 24 ≤ sz) (p : Process) :
    ∃ p1, open_db_create PAGE_SIZE sz L p = some (-1, p1) := by
  obtain ⟨-, -, -, h4, -⟩ := get_new_page_header_fields sz h24
  obtain ⟨r, w1, hp1, hg, g1, -, -⟩ := get_new_page_page_count PAGE_SIZE sz L
    { p.world with g_header_page := some (get_new_page_header sz) } (get_new_page_header sz)
    PAGE_TYPE.INTERNAL_PAGE (by decide) rfl (by omega)
  rw [open_db_create_of PAGE_SIZE sz L p r w1 hg]
  exact ⟨_, open_db_write_of_write_fails PAGE_SIZE _ hp1 g1
    (by rw [write_page_fails PAGE_SIZE h2]; decide)⟩

/-- On a process without stream and cached pages and a path that names no file, `open_db`
tries to create the file, fails when that is refused, and runs the branch for a new file
otherwise. -/
theorem open_db_fresh (PAGE_SIZE sz : Nat) (L : NodeLayout) (p : Process) (pathname : String)
    (hf : p.world.g_db_file = none) (hh : p.world.g_header_page = none)
    (hr : p.world.g_root_page = none)
    (hhf : p.header_freed = false) (hrf : p.root_freed = false)
    (hno : p.files.lookup pathname = none) :
    open_db PAGE_SIZE sz L p pathname =
      if (fopen (fopen p pathname Mode.r_plus) pathname Mode.w_plus).world.g_db_file.isSome
      then open_db_create PAGE_SIZE sz L
        (fopen (fopen p pathname Mode.r_plus) pathname Mode.w_plus)
      else some (-1, fopen (fopen p pathname Mode.r_plus) pathname Mode.w_plus) := by
  have h1 : (fopen p pathname Mode.r_plus).world.g_db_file = none := by
    rw [fopen_r_plus_missing p pathname hno]
  unfold open_db
  rw [open_db_clean_fresh p hf hh hr hhf hrf]
  simp only [h1, Option.isSome_none, Bool.false_eq_true, if_false]

/-- Run of the two writes of `open_db` when no library call fails (page size of at least 2):
the header page is written in full, `write_page` returns -1, and the root page is not
written. -/
theorem open_db_write_run (PAGE_SIZE : Nat) (h2 : 2 ≤ PAGE_SIZE) (p : Process)
    (f : FileState) (h : Page) (hh : p.world.g_header_page = some h)
    (hf : p.world.g_db_file = some f) (hs : p.world.script = []) (ho : h.offset = 0)
    (hl : h.ptr_page.length = PAGE_SIZE) :
    open_db_write PAGE_SIZE p =
      some (-1, { p with world := { p.world with
        g_db_file := some { contents := writeAt f.contents 0 h.ptr_page, pos := PAGE_SIZE },
        trace := p.world.trace ++
          [LibCall.seek 0 true, LibCall.write 0 PAGE_SIZE PAGE_SIZE] } }) := by
  rw [open_db_write_of_write_fails PAGE_SIZE p h hh
      (by rw [write_page_fails PAGE_SIZE h2]; decide),
    write_page_run PAGE_SIZE h2 p.world f h hf hs (by rw [ho]; decide) (by rw [ho])  hl]
  simp only [ho, Int.toNat_zero, Nat.zero_add]

/-- Run of `open_db` on a path that names no file when no library call fails (page size of
at least 24, header page of one page): the file is created, the extension for the root page
writes the header over page 0 and is undone, page 0 is read back, no root page is obtained,
the header is written again, and the result is -1. -/
theorem open_db_fresh_run (PAGE_SIZE : Nat) (L : NodeLayout) (h24 : 24 ≤ PAGE_SIZE)
    (p : Process) (pathname : String)
    (hf : p.world.g_db_file = none) (hh : p.world.g_header_page = none)
    (hr : p.world.g_root_page = none)
    (hhf : p.header_freed = false) (hrf : p.root_freed = false)
    (hno : p.files.lookup pathname = none) (hs : p.world.script = []) :
    open_db PAGE_SIZE PAGE_SIZE L p pathname =
      some (-1,
        { world :=
            { g_db_file := some
                { contents := writeAt
                    (writeAt [] 0 (make_free_pages_header PAGE_SIZE
                      (get_new_page_header PAGE_SIZE) 10).ptr_page) 0
                    (make_free_pages_undo
                      (make_free_pages_header PAGE_SIZE (get_new_page_header PAGE_SIZE) 10)
                      (free_page_offset (get_new_page_header PAGE_SIZE)) 10).ptr_page,
                  pos := PAGE_SIZE },
              g_header_page := some (make_free_pages_undo
                (make_free_pages_header PAGE_SIZE (get_new_page_header PAGE_SIZE) 10)
                (free_page_offset (get_new_page_header PAGE_SIZE)) 10),
              g_root_page := none,
              script := [],
              trace := p.world.trace ++
                [LibCall.seek 0 true, LibCall.write 0 PAGE_SIZE PAGE_SIZE,
                 LibCall.seek 0 true, LibCall.read 0 PAGE_SIZE PAGE_SIZE,
                 LibCall.seek 0 true, LibCall.write 0 PAGE_SIZE PAGE_SIZE],
              junk := p.world.junk },
          files := (pathname, []) :: p.files.filter (fun e => !(e.1 == pathname)),
          pathname := pathname, closed := false, header_freed := false,
          root_freed := false }) := by
  obtain ⟨h1, -, -, h4, h5⟩ := get_new_page_header_fields PAGE_SIZE h24
  obtain ⟨-, -, -, ul, uo⟩ :=
    make_free_pages_undo_fields PAGE_SIZE (get_new_page_header PAGE_SIZE) 10 (by omega)
  have hU0 : (make_free_pages_undo
      (make_free_pages_header PAGE_SIZE (get_new_page_header PAGE_SIZE) 10)
      (free_page_offset (get_new_page_header PAGE_SIZE)) 10).offset = 0 := by rw [uo, h5]
  obtain ⟨p2, h2p⟩ : ∃ p2 : Process, p2 =
      { p with world := { p.world with g_db_file := none }, closed := false } := ⟨_, rfl⟩
  have e2 : fopen p pathname Mode.r_plus = p2 := by
    rw [fopen_r_plus_missing p pathname hno, nextOutcome_nil p.world hs, h2p]
  have hs2 : p2.world.script = [] := by rw [h2p]; exact hs
  obtain ⟨p3, h3⟩ : ∃ p3 : Process, p3 =
      { p with world := { p.world with g_db_file := some { contents := [], pos := 0 } },
               files := (pathname, []) :: p.files.filter (fun e => !(e.1 == pathname)),
               pathname := pathname, closed := false } := ⟨_, rfl⟩
  have e3 : fopen (fopen p pathname Mode.r_plus) pathname Mode.w_plus = p3 := by
    rw [e2, fopen_w_plus_run p2 pathname hs2, h3, h2p]
  have hf3 : p3.world.g_db_file = some { contents := [], pos := 0 } := by rw [h3]
  have hs3 : p3.world.script = [] := by rw [h3]; exact hs
  have hg := get_new_page_run_empty PAGE_SIZE PAGE_SIZE L h24
    { p3.world with g_header_page := some (get_new_page_header PAGE_SIZE) }
    { contents := [], pos := 0 } (get_new_page_header PAGE_SIZE) PAGE_TYPE.INTERNAL_PAGE
    (Or.inr rfl) rfl hf3 hs3 h5 h4 h1
  rw [open_db_fresh PAGE_SIZE PAGE_SIZE L p pathname hf hh hr hhf hrf hno, e3, hf3]
  simp only [Option.isSome_some, if_true]
  rw [open_db_create_of PAGE_SIZE PAGE_SIZE L p3 _ _ hg]
  rw [open_db_write_run PAGE_SIZE (by omega) _
    { contents := writeAt [] 0 (make_free_pages_header PAGE_SIZE
        (get_new_page_header PAGE_SIZE) 10).ptr_page, pos := PAGE_SIZE }
    (make_free_pages_undo
      (make_free_pages_header PAGE_SIZE (get_new_page_header PAGE_SIZE) 10)
      (free_page_offset (get_new_page_header PAGE_SIZE)) 10)]
  · subst h3
    simp only [hs, List.append_assoc, List.cons_append, List.nil_append]
  · rfl
  · rfl
  · exact hs3
  · exact hU0
  · rw [ul, h4]

/-- Run of `close_db` on an open stream when no library call fails: the bytes of the stream
become the bytes of the file and the result is 0; `g_db_file` is not reset. -/
theorem close_db_run (p : Process) (f : FileState) (hf : p.world.g_db_file = some f)
    (hc : p.closed = false) (hs : p.world.script = []) :
    close_db p = some (0,
      { p with world := fflush p.world,
               files := (p.pathname, f.contents) ::
                 p.files.filter (fun e => !(e.1 == p.pathname)),
               closed := true }) := by
  unfold close_db fclose nextOutcome fflush
  rw [hf]
  simp only [hc, hs, hf]
  rfl

/-- The call of `open_db` in a process whose stream was closed by `close_db` passes the closed
stream to `fclose` (line 21), which is undefined behaviour. -/
theorem open_db_closed_stream (PAGE_SIZE sz : Nat) (L : NodeLayout) (p : Process)
    (pathname : String) (f : FileState) (hf : p.world.g_db_file = some f)
    (hc : p.closed = true) :
    open_db PAGE_SIZE sz L p pathname = none := by
  unfold open_db open_db_clean
  simp only [hf, hc, Option.isSome_some, Bool.and_self, Bool.true_or, if_true]

/-- For a page size of at least 2 the branch of `open_db` for an existing file returns -1
after its first `read_page`, with no header page cached. -/
theorem open_db_load_fails (PAGE_SIZE : Nat) (h2 : 2 ≤ PAGE_SIZE) (p : Process) :
    open_db_load PAGE_SIZE p =
      (-1, { p with world := { (read_page PAGE_SIZE p.world 0).2 with g_header_page := none },
                    header_freed := false }) := by
  have h := read_page_fails PAGE_SIZE h2 p.world 0
  unfold open_db_load
  generalize read_page PAGE_SIZE p.world 0 = rd at h ⊢
  obtain ⟨r, w1⟩ := rd
  simp only at h
  subst h
  rfl

/-- Run of `open_db` on a path that names a file of at least one page when no library call
fails (page size of at least 2): page 0 is read in full, `read_page` returns `NULL`, and
`open_db` returns -1 with no page cached. -/
theorem open_db_existing_run (PAGE_SIZE sz : Nat) (L : NodeLayout) (h2 : 2 ≤ PAGE_SIZE)
    (p : Process) (pathname : String) (bytes : List Nat)
    (hf : p.world.g_db_file = none) (hh : p.world.g_header_page = none)
    (hr : p.world.g_root_page = none)
    (hhf : p.header_freed = false) (hrf : p.root_freed = false)
    (hb : p.files.lookup pathname = some bytes) (hs : p.world.script = [])
    (hl : PAGE_SIZE ≤ bytes.length) :
    open_db PAGE_SIZE sz L p pathname =
      some (-1,
        { p with
          world := { p.world with
            g_db_file := some { contents := bytes, pos := PAGE_SIZE },
            g_header_page := none,
            trace := p.world.trace ++
              [LibCall.seek 0 true, LibCall.read 0 PAGE_SIZE PAGE_SIZE] },
          pathname := pathname, closed := false, header_freed := false }) := by
  obtain ⟨p2, h2p⟩ : ∃ p2 : Process, p2 =
      { p with world := { p.world with g_db_file := some { contents := bytes, pos := 0 } },
               pathname := pathname, closed := false } := ⟨_, rfl⟩
  have e2 : fopen p pathname Mode.r_plus = p2 := by
    rw [fopen_r_plus_run p pathname bytes hs hb, h2p]
  have hf2 : p2.world.g_db_file = some { contents := bytes, pos := 0 } := by rw [h2p]
  have hs2 : p2.world.script = [] := by rw [h2p]; exact hs
  unfold open_db
  rw [open_db_clean_fresh p hf hh hr hhf hrf]
  simp only
  rw [e2, hf2]
  simp only [Option.isSome_some, if_true]
  rw [open_db_load_fails PAGE_SIZE h2 p2,
    read_page_run PAGE_SIZE h2 p2.world _ 0 hf2 hs2 (by decide) (by decide)
      (by simpa using hl)]
  subst h2p
  simp only [Int.toNat_zero, Nat.zero_add]


/-! ## C11: the page count after creation and after the first leaf page -/

/-- C11, counterexample: with a page size of 4096, a process that has opened nothing, a file
system without files and no failing library call, `open_db("db")` returns -1 and leaves a
cached header with `number_of_pages = 1` (the claim says 2), and a following
`get_new_page(LEAF_PAGE)` returns `NULL` and leaves `number_of_pages = 1` (the claim says
12). -/
theorem open_db_page_count_counterexample :
    ∃ p1 hp w2 hp2, open_db 4096 4096 layoutN processN "db" = some (-1, p1) ∧
      p1.world.g_header_page = some hp ∧ number_of_pages hp = 1 ∧
      get_new_page 4096 4096 layoutN p1.world PAGE_TYPE.LEAF_PAGE = some (none, w2) ∧
      w2.g_header_page = some hp2 ∧ number_of_pages hp2 = 1 := by
  obtain ⟨h1, -, h3, h4, h5⟩ := get_new_page_header_fields 4096 (by decide)
  obtain ⟨u1, u2, -, ul, uo⟩ :=
    make_free_pages_undo_fields 4096 (get_new_page_header 4096) 10 (by rw [h4]; decide)
  obtain ⟨-, v2, -, -, -⟩ :=
    make_free_pages_undo_fields 4096
      (make_free_pages_undo (make_free_pages_header 4096 (get_new_page_header 4096) 10)
        (free_page_offset (get_new_page_header 4096)) 10) 10 (by rw [ul, h4]; decide)
  refine ⟨_, _, _, _,
    open_db_fresh_run 4096 layoutN (by decide) processN "db" rfl rfl rfl rfl rfl rfl rfl,
    rfl, by rw [u2, h3],
    get_new_page_run_empty 4096 4096 layoutN (by decide) _ _ _ PAGE_TYPE.LEAF_PAGE
      (Or.inl rfl) rfl rfl rfl (by rw [uo, h5]) (by rw [ul, h4]) (by rw [u1, h1]),
    rfl, by rw [v2, u2, h3]⟩

/-- C11, amended: for a process without stream and cached pages and a path that names no
file, whatever the library calls do: `open_db` returns (with -1 for a page size of at least
2), and a header page that is cached on return has `number_of_pages` 1 or 11 (the count 1 of
the new header, or that count plus the extension batch of 10), never 2; a following
`get_new_page(LEAF_PAGE)` returns with `number_of_pages` 1, 11 or 21, never 12. -/
theorem open_db_fresh_page_count (PAGE_SIZE sz : Nat) (L : NodeLayout) (h24 : 24 ≤ sz)
    (p : Process) (pathname : String)
    (hf : p.world.g_db_file = none) (hh : p.world.g_header_page = none)
    (hr : p.world.g_root_page = none)
    (hhf : p.header_freed = false) (hrf : p.root_freed = false)
    (hno : p.files.lookup pathname = none) :
    (2 ≤ PAGE_SIZE → ∃ p1, open_db PAGE_SIZE sz L p pathname = some (-1, p1)) ∧
    ∀ rc p1 hp, open_db PAGE_SIZE sz L p pathname = some (rc, p1) →
      p1.world.g_header_page = some hp →
      (number_of_pages hp = 1 ∨ number_of_pages hp = 11) ∧
      ∃ r w2 hp2, get_new_page PAGE_SIZE sz L p1.world PAGE_TYPE.LEAF_PAGE = some (r, w2) ∧
        w2.g_header_page = some hp2 ∧
        (number_of_pages hp2 = 1 ∨ number_of_pages hp2 = 11 ∨ number_of_pages hp2 = 21) := by
  have hm := fopen_memory (fopen p pathname Mode.r_plus) pathname Mode.w_plus
  have hm0 := fopen_memory p pathname Mode.r_plus
  rw [open_db_fresh PAGE_SIZE sz L p pathname hf hh hr hhf hrf hno]
  generalize fopen (fopen p pathname Mode.r_plus) pathname Mode.w_plus = p3 at hm ⊢
  have hh3 : p3.world.g_header_page = none := by rw [hm.1, hm0.1, hh]
  refine ⟨?_, ?_⟩
  · intro h2
    by_cases hs : p3.world.g_db_file.isSome = true
    · rw [if_pos hs]
      exact open_db_create_fails PAGE_SIZE sz L h2 h24 p3
    · rw [if_neg hs]
      exact ⟨p3, rfl⟩
  · intro rc p1 hp heq hhp
    by_cases hs : p3.world.g_db_file.isSome = true
    · rw [if_pos hs] at heq
      obtain ⟨hp1, g1, g2, g3⟩ := open_db_create_page_count PAGE_SIZE sz L h24 p3 rc p1 heq
      rw [g1] at hhp
      simp only [Option.some.injEq] at hhp
      subst hhp
      refine ⟨g3, ?_⟩
      obtain ⟨r, w2, hp2, hg, k1, -, k3⟩ := get_new_page_page_count PAGE_SIZE sz L
        p1.world hp1 PAGE_TYPE.LEAF_PAGE (by decide) g1 g2
      refine ⟨r, w2, hp2, hg, k1, ?_⟩
      have e11 : wrap64 (1 + 10) = 11 := wrap64_of_range 11 (by decide) (by decide)
      have e21 : wrap64 (11 + 10) = 21 := wrap64_of_range 21 (by decide) (by decide)
      rcases g3 with g3 | g3 <;> rw [g3] at k3 <;> rcases k3 with k3 | k3
      · exact Or.inl k3
      · exact Or.inr (Or.inl (k3.trans e11))
      · exact Or.inr (Or.inl k3)
      · exact Or.inr (Or.inr (k3.trans e21))
    · rw [if_neg hs] at heq
      simp only [Option.some.injEq, Prod.mk.injEq] at heq
      obtain ⟨-, rfl⟩ := heq
      rw [hh3] at hhp
      exact absurd hhp (by simp)

/-- Instance of the amended C11 for a page size of 4096, the process `processN` and the path
`"db"`. -/
theorem open_db_fresh_page_count_witness :
    (24 ≤ 4096 ∧ processN.world.g_db_file = none ∧ processN.files.lookup "db" = none) ∧
    ((2 ≤ 4096 → ∃ p1, open_db 4096 4096 layoutN processN "db" = some (-1, p1)) ∧
    ∀ rc p1 hp, open_db 4096 4096 layoutN processN "db" = some (rc, p1) →
      p1.world.g_header_page = some hp →
      (number_of_pages hp = 1 ∨ number_of_pages hp = 11) ∧
      ∃ r w2 hp2, get_new_page 4096 4096 layoutN p1.world PAGE_TYPE.LEAF_PAGE = some (r, w2) ∧
        w2.g_header_page = some hp2 ∧
        (number_of_pages hp2 = 1 ∨ number_of_pages hp2 = 11 ∨ number_of_pages hp2 = 21)) :=
  ⟨⟨by decide, rfl, rfl⟩,
    open_db_fresh_page_count 4096 4096 layoutN (by decide) processN "db" rfl rfl rfl rfl rfl
      rfl⟩

/-! ## C12: reopening a database after `close_db` -/

/-- C12, evaluation at the failing input: with a page size of 4096 and no failing library
call, `open_db("db")` on a path that names no file returns -1, `close_db()` returns 0 and
leaves a file of one page (the header page with count 1); a later `open_db("db")` in the same
process hands the closed stream to `fclose` (undefined behaviour), and in a new process it
reads page 0 in full and returns -1 with no header page and no root page cached.  The claim
requires the later `open_db` to succeed with the header and the root page of close time. -/
theorem open_db_after_close_db_fails :
    ∃ p1 p2 bytes p3, open_db 4096 4096 layoutN processN "db" = some (-1, p1) ∧
      close_db p1 = some (0, p2) ∧
      p2.files.lookup "db" = some bytes ∧ bytes.length = 4096 ∧ getI64 bytes 16 = 1 ∧
      open_db 4096 4096 layoutN p2 "db" = none ∧
      open_db 4096 4096 layoutN { processN with files := p2.files } "db" = some (-1, p3) ∧
      p3.world.g_header_page = none ∧ p3.world.g_root_page = none ∧
      p3.world.trace = [LibCall.seek 0 true, LibCall.read 0 4096 4096] := by
  obtain ⟨-, -, h3, h4, -⟩ := get_new_page_header_fields 4096 (by decide)
  obtain ⟨-, u2, -, ul, -⟩ :=
    make_free_pages_undo_fields 4096 (get_new_page_header 4096) 10 (by rw [h4]; decide)
  obtain ⟨-, -, -, ml, -⟩ :=
    make_free_pages_header_fields 4096 (get_new_page_header 4096) 10 (by rw [h4]; decide)
  have hdu : (make_free_pages_undo (make_free_pages_header 4096 (get_new_page_header 4096) 10)
      (free_page_offset (get_new_page_header 4096)) 10).ptr_page ≠ [] := by
    intro h0
    rw [h0, h4] at ul
    exact absurd ul (by decide)
  have hdm : (make_free_pages_header 4096 (get_new_page_header 4096) 10).ptr_page ≠ [] := by
    intro h0
    rw [h0, h4] at ml
    exact absurd ml (by decide)
  have hlen : (writeAt
      (writeAt [] 0 (make_free_pages_header 4096 (get_new_page_header 4096) 10).ptr_page) 0
      (make_free_pages_undo (make_free_pages_header 4096 (get_new_page_header 4096) 10)
        (free_page_offset (get_new_page_header 4096)) 10).ptr_page).length = 4096 := by
    rw [length_writeAt _ _ _ hdu, length_writeAt _ _ _ hdm, ul, ml, h4]
    rfl
  have hcnt : getI64 (writeAt
      (writeAt [] 0 (make_free_pages_header 4096 (get_new_page_header 4096) 10).ptr_page) 0
      (make_free_pages_undo (make_free_pages_header 4096 (get_new_page_header 4096) 10)
        (free_page_offset (get_new_page_header 4096)) 10).ptr_page) 16 = 1 := by
    have h := getI64_writeAt_inside
      (writeAt [] 0 (make_free_pages_header 4096 (get_new_page_header 4096) 10).ptr_page) 0 16
      (make_free_pages_undo (make_free_pages_header 4096 (get_new_page_header 4096) 10)
        (free_page_offset (get_new_page_header 4096)) 10).ptr_page (by rw [ul, h4]; decide)
    simp only [Nat.zero_add] at h
    rw [h]
    exact u2.trans h3
  refine ⟨_, _, _, _,
    open_db_fresh_run 4096 layoutN (by decide) processN "db" rfl rfl rfl rfl rfl rfl rfl,
    close_db_run _ _ rfl rfl rfl, rfl, hlen, hcnt,
    open_db_closed_stream 4096 4096 layoutN _ "db" _ rfl rfl,
    open_db_existing_run 4096 4096 layoutN (by decide) _ "db" _ rfl rfl rfl rfl rfl rfl rfl
      (le_of_eq hlen.symm),
    rfl, rfl, rfl⟩

/-! ## C13: creation of a new database -/

/-- C13, evaluation at the failing input: with a page size of 4096, a process that has
opened nothing, a file system without files and no failing library call, `open_db("db")`
returns -1, no root page is cached, and the file holds one page only, the header page with
count 1, head 0 and root offset 0; the library calls are the header write of the extension,
the read of page 0 and the header write of line 39.  The claim requires the result 0 and a
second page, the internal root page. -/
theorem open_db_creates_no_root_page :
    ∃ p1 hp f1, open_db 4096 4096 layoutN processN "db" = some (-1, p1) ∧
      p1.world.g_root_page = none ∧ p1.world.g_header_page = some hp ∧
      number_of_pages hp = 1 ∧ free_page_offset hp = 0 ∧ root_page_offset hp = 0 ∧
      p1.world.g_db_file = some f1 ∧ f1.contents.length = 4096 ∧
      getI64 f1.contents 0 = 0 ∧ getI64 f1.contents 8 = 0 ∧ getI64 f1.contents 16 = 1 ∧
      p1.world.trace =
        [LibCall.seek 0 true, LibCall.write 0 4096 4096,
         LibCall.seek 0 true, LibCall.read 0 4096 4096,
         LibCall.seek 0 true, LibCall.write 0 4096 4096] := by
  obtain ⟨h1, h2, h3, h4, -⟩ := get_new_page_header_fields 4096 (by decide)
  obtain ⟨u1, u2, u3, ul, -⟩ :=
    make_free_pages_undo_fields 4096 (get_new_page_header 4096) 10 (by rw [h4]; decide)
  obtain ⟨-, -, -, ml, -⟩ :=
    make_free_pages_header_fields 4096 (get_new_page_header 4096) 10 (by rw [h4]; decide)
  have hdu : (make_free_pages_undo (make_free_pages_header 4096 (get_new_page_header 4096) 10)
      (free_page_offset (get_new_page_header 4096)) 10).ptr_page ≠ [] := by
    intro h0
    rw [h0, h4] at ul
    exact absurd ul (by decide)
  have hdm : (make_free_pages_header 4096 (get_new_page_header 4096) 10).ptr_page ≠ [] := by
    intro h0
    rw [h0, h4] at ml
    exact absurd ml (by decide)
  have hfield : ∀ off, off + 8 ≤ 4096 → getI64 (writeAt
      (writeAt [] 0 (make_free_pages_header 4096 (get_new_page_header 4096) 10).ptr_page) 0
      (make_free_pages_undo (make_free_pages_header 4096 (get_new_page_header 4096) 10)
        (free_page_offset (get_new_page_header 4096)) 10).ptr_page) off =
      getI64 (make_free_pages_undo (make_free_pages_header 4096 (get_new_page_header 4096) 10)
        (free_page_offset (get_new_page_header 4096)) 10).ptr_page off := by
    intro off ho
    have h := getI64_writeAt_inside
      (writeAt [] 0 (make_free_pages_header 4096 (get_new_page_header 4096) 10).ptr_page) 0 off
      (make_free_pages_undo (make_free_pages_header 4096 (get_new_page_header 4096) 10)
        (free_page_offset (get_new_page_header 4096)) 10).ptr_page (by rw [ul, h4]; exact ho)
    simp only [Nat.zero_add] at h
    exact h
  refine ⟨_, _, _,
    open_db_fresh_run 4096 layoutN (by decide) processN "db" rfl rfl rfl rfl rfl rfl rfl,
    rfl, rfl, u2.trans h3, u1.trans h1, u3.trans h2, rfl, ?_, ?_, ?_, ?_, rfl⟩
  · rw [length_writeAt _ _ _ hdu, length_writeAt _ _ _ hdm, ul, ml, h4]
    rfl
  · rw [hfield 0 (by decide)]
    exact u1.trans h1
  · rw [hfield 8 (by decide)]
    exact u3.trans h2
  · rw [hfield 16 (by decide)]
    exact u2.trans h3

end DbFile
